import Mathlib

/-!
Shallow embedding of the itsyhome-streamdeck plugin: the Itsyhome HTTP client
(path construction and percent-encoding), and the per-capability Stream Deck
action controllers (toggle-device, lock, garage-door, group, security-system,
thermostat, execute-scene).  Stateful controllers are modelled by explicit
state records; every handler returns the successor state together with the
list of observable effects (client calls, log writes, display updates) it
performs, in program order.  Network outcomes are passed in as oracles.
-/

namespace Itsyhome

/-- JS string truthiness for an optional string: `undefined` and `""` are falsy. -/
def jsTruthy (o : Option String) : Bool :=
  match o with
  | some s => decide (s ≠ "")
  | none => false

/-- JS `a || b` on an optional string and a default (falsy left operand yields the default). -/
def jsOrStr (o : Option String) (d : String) : String :=
  match o with
  | some s => if s = "" then d else s
  | none => d

/-- JS `Math.round` on a rational: floor of x + 1/2 (rounds half toward positive infinity). -/
def jsRound (x : ℚ) : ℤ :=
  Int.floor (x + 1/2)

/-- A JS `Map` with string keys, modelled as an association list.
`set` replaces any existing binding, `delete` removes it. -/
structure SMap (β : Type) where
  entries : List (String × β)
deriving Repr, DecidableEq

namespace SMap

def empty {β : Type} : SMap β := ⟨[]⟩

def get? {β : Type} (m : SMap β) (k : String) : Option β :=
  (m.entries.find? (fun p => p.1 == k)).map Prod.snd

def set {β : Type} (m : SMap β) (k : String) (v : β) : SMap β :=
  ⟨(k, v) :: m.entries.filter (fun p => p.1 ≠ k)⟩

def erase {β : Type} (m : SMap β) (k : String) : SMap β :=
  ⟨m.entries.filter (fun p => p.1 ≠ k)⟩

theorem get?_set_self {β : Type} (m : SMap β) (k : String) (v : β) :
    (m.set k v).get? k = some v := by
  simp [get?, set, List.find?]

theorem get?_erase_self {β : Type} (m : SMap β) (k : String) :
    (m.erase k).get? k = none := by
  simp only [get?, erase, Option.map_eq_none']
  induction m.entries with
  | nil => simp
  | cons p t ih =>
    rw [List.filter_cons]
    by_cases h : p.1 = k
    · simp [h, ih]
    · simp [h, List.find?_cons, ih]

end SMap

/-- `DeviceState` from the client module: all fields optional (absent = `none`).
Only the fields the embedded controllers read are carried. -/
structure DeviceState where
  on' : Option Bool
  brightness : Option ℚ
  locked : Option Bool
  doorState : Option String
  mode : Option String
  temperature : Option ℚ
  targetTemperature : Option ℚ
  securityState : Option ℕ
deriving Repr, DecidableEq

/-- A device state with every field absent. -/
def DeviceState.blank : DeviceState :=
  ⟨none, none, none, none, none, none, none, none⟩

/-- `DeviceInfo` snapshot returned by `getDeviceInfo`. -/
structure DeviceInfo where
  type : String
  icon : Option String
  state : Option DeviceState
deriving Repr, DecidableEq

/-- `SceneInfo` catalog entry (`listScenes`). -/
structure SceneInfo where
  name : String
  icon : Option String
deriving Repr, DecidableEq

/-- `ActionResponse` body of a mutating client call. -/
structure ActionResponse where
  status : String
  message : Option String
deriving Repr, DecidableEq

/-- Outcome of an awaited mutating client call: a thrown error or a parsed response. -/
inductive CmdOutcome where
  | threw
  | ok (r : ActionResponse)
deriving Repr, DecidableEq

/-- Outcome of an awaited `getDeviceInfo` call: thrown error, bare object, or array. -/
inductive FetchOutcome where
  | fail
  | single (d : DeviceInfo)
  | arr (ds : List DeviceInfo)
deriving Repr, DecidableEq

/-- `Array.isArray(info) ? info[0] : info`, with a thrown fetch yielding no device. -/
def FetchOutcome.firstDevice : FetchOutcome → Option DeviceInfo
  | .fail => none
  | .single d => some d
  | .arr ds => ds.head?

/-- `Array.isArray(info) ? info : [info]` (group normalization); a thrown fetch has no list. -/
def FetchOutcome.deviceList : FetchOutcome → Option (List DeviceInfo)
  | .fail => none
  | .single d => some [d]
  | .arr ds => some ds

/-- An image pushed to the key: either a runtime-tinted render (`renderIcon`)
or a static PNG path. -/
inductive Image where
  | rendered (name : String) (color : String) (isOn : Bool)
  | renderedText (name : String) (color : String) (isOn : Bool) (text : Option String)
  | png (p : String)
deriving Repr, DecidableEq

/-- One observable effect of a handler, in program order. -/
inductive Effect where
  | fetchInfo (target : String)
  | toggleCall (target : String)
  | turnOnCall (target : String)
  | turnOffCall (target : String)
  | sceneCall (name : String)
  | armCall (target : String) (mode : ℕ)
  | disarmCall (target : String)
  | listScenesCall
  | logError (msg : String)
  | showAlert
  | showOk
  | setImage (img : Image)
  | setTitle (title : String)
  | setState (st : ℕ)
deriving Repr, DecidableEq

/-- Is the effect a network request issued through the client? -/
def Effect.isClientCall : Effect → Bool
  | .fetchInfo _ => true
  | .toggleCall _ => true
  | .turnOnCall _ => true
  | .turnOffCall _ => true
  | .sceneCall _ => true
  | .armCall _ _ => true
  | .disarmCall _ => true
  | .listScenesCall => true
  | _ => false

/-- Is the effect a log write? -/
def Effect.isLog : Effect → Bool
  | .logError _ => true
  | _ => false

/-- Is the effect a visual push to the display (image, title or integer state)? -/
def Effect.isVisual : Effect → Bool
  | .setImage _ => true
  | .setTitle _ => true
  | .setState _ => true
  | _ => false

/-- `getIconFromName` from icons.ts: static PNG path for a Phosphor icon name. -/
def getIconFromName (iconName : String) (isOn : Bool) : Image :=
  .png ("imgs/icons/" ++ iconName ++ "-" ++ (if isOn then "on" else "off") ++ ".png")

/-- `DEVICE_TYPE_FALLBACK` table from icons.ts. -/
def deviceTypeFallback (t : String) : Option String :=
  if t = "light" then some "lightbulb"
  else if t = "switch" then some "switch"
  else if t = "outlet" then some "plug"
  else if t = "fan" then some "fan"
  else if t = "thermostat" then some "thermometer"
  else if t = "heater-cooler" then some "thermometer"
  else if t = "lock" then some "lock"
  else if t = "blinds" then some "venetian-mask"
  else if t = "garage-door" then some "garage"
  else if t = "temperature-sensor" then some "thermometer-simple"
  else if t = "humidity-sensor" then some "drop"
  else if t = "security-system" then some "shield-check"
  else none

/-- `getDeviceIcon` from icons.ts. -/
def getDeviceIcon (deviceType : String) (isOn : Bool) (apiIcon : Option String) : Image :=
  getIconFromName ((apiIcon.orElse (fun _ => deviceTypeFallback deviceType)).getD "question") isOn

/-- `getGroupIcon` from icons.ts. -/
def getGroupIcon (isOn : Bool) (apiIcon : Option String) : Image :=
  getIconFromName (apiIcon.getD "squares-four") isOn

/-- `getGarageDoorIcon` from icons.ts. -/
def getGarageDoorIcon (isOpen : Bool) (apiIcon : Option String) : Image :=
  getIconFromName (apiIcon.getD "garage") isOpen

/-! Percent-encoding.  `encodeURIComponent` operates on the UTF-8 byte
sequence of its argument; a Target is therefore modelled as its list of
UTF-8 bytes (each < 256). -/

/-- Bytes `encodeURIComponent` leaves unescaped: `A-Z a-z 0-9 - _ . ! ~ * ( )`
and the apostrophe (code 39). -/
def isUnreservedByte (b : ℕ) : Bool :=
  (65 ≤ b && b ≤ 90) || (97 ≤ b && b ≤ 122) || (48 ≤ b && b ≤ 57) ||
  (b == 45) || (b == 46) || (b == 95) || (b == 126) ||
  (b == 33) || (b == 42) || (b == 39) || (b == 40) || (b == 41)

/-- Uppercase hex digit of a value below 16, as a byte. -/
def hexDigit (n : ℕ) : ℕ :=
  if n < 10 then 48 + n else 55 + n

/-- Value of a hex digit byte (accepts both cases), if it is one. -/
def hexVal (b : ℕ) : Option ℕ :=
  if 48 ≤ b && b ≤ 57 then some (b - 48)
  else if 65 ≤ b && b ≤ 70 then some (b - 55)
  else if 97 ≤ b && b ≤ 102 then some (b - 87)
  else none

/-- `encodeURIComponent` on a UTF-8 byte sequence: unreserved bytes pass
through, every other byte becomes `%XX` (37 is the code of the percent sign). -/
def percentEncode : List ℕ → List ℕ
  | [] => []
  | b :: bs =>
    if isUnreservedByte b then b :: percentEncode bs
    else 37 :: hexDigit (b / 16) :: hexDigit (b % 16) :: percentEncode bs

/-- `decodeURIComponent` on a byte sequence: `%XX` escapes become the coded
byte, other bytes pass through; a malformed escape fails. -/
def percentDecode : List ℕ → Option (List ℕ)
  | [] => some []
  | b :: rest =>
    if b = 37 then
      match rest with
      | hi :: lo :: rest2 =>
        match hexVal hi, hexVal lo with
        | some x, some y => (percentDecode rest2).map (fun bs => (16 * x + y) :: bs)
        | _, _ => none
      | _ => none
    else (percentDecode rest).map (fun bs => b :: bs)

/-- UTF-8 bytes of an ASCII literal (used for fixed path segments). -/
def strBytes (s : String) : List ℕ :=
  s.data.map Char.toNat

/-- `getDeviceInfo` request path from the client (part_012). -/
def getDeviceInfoPath (target : List ℕ) : List ℕ :=
  strBytes "/info/" ++ percentEncode target

/-- `toggle` request path from the client (part_012). -/
def togglePath (target : List ℕ) : List ℕ :=
  strBytes "/toggle/" ++ percentEncode target

/-- `turnOn` request path from the client (part_012). -/
def turnOnPath (target : List ℕ) : List ℕ :=
  strBytes "/on/" ++ percentEncode target

/-- `turnOff` request path from the client (part_012). -/
def turnOffPath (target : List ℕ) : List ℕ :=
  strBytes "/off/" ++ percentEncode target

/-- `executeScene` request path from the client (part_012). -/
def executeScenePath (name : List ℕ) : List ℕ :=
  strBytes "/scene/" ++ percentEncode name

/-- Modelled from the spec: `armSecurity(target, mode)` of the final client
revision is absent from the client file in the snapshot (part_012 predates it;
only its caller, tests and README appear).  Per spec §4.1/§6 it issues
`GET /security/arm/{mode}/{target}` with the target percent-encoded and
returns the structured `ActionResponse`. -/
def armSecurityPath (mode : ℕ) (target : List ℕ) : List ℕ :=
  strBytes "/security/arm/" ++ strBytes (toString mode) ++ strBytes "/" ++ percentEncode target

/-- Modelled from the spec: `disarmSecurity(target)` of the final client
revision is absent from the client file in the snapshot (part_012 predates it).
Per spec §4.1/§6 it issues `GET /security/disarm/{target}` with the target
percent-encoded and returns the structured `ActionResponse`. -/
def disarmSecurityPath (target : List ℕ) : List ℕ :=
  strBytes "/security/disarm/" ++ percentEncode target

/-! ToggleDeviceAction (src/actions/toggle-device.ts). -/

/-- `ToggleSettings`: `port = 0` models an unset (falsy) port. -/
structure ToggleSettings where
  target : String
  port : ℕ
  iconStyle : Option String
deriving Repr, DecidableEq

/-- `DeviceCache` entry of the toggle controller. -/
structure DeviceCache where
  type : String
  isOn : Bool
deriving Repr, DecidableEq

/-- Instance fields of `ToggleDeviceAction`.  `liveTimers` counts intervals
created and not yet cleared (to observe that the timer is never doubled);
`pollTimer` is the nullable field holding the current interval. -/
structure ToggleState where
  clientPort : ℕ
  pollTimer : Bool
  liveTimers : ℕ
  activeContexts : List String
  deviceCache : SMap DeviceCache
deriving Repr, DecidableEq

/-- Fresh `ToggleDeviceAction` instance. -/
def toggleInit : ToggleState :=
  ⟨0, false, 0, [], SMap.empty⟩

/-- JS `Set.add` on the active-context list. -/
def setAdd (l : List String) (id : String) : List String :=
  if id ∈ l then l else l ++ [id]

/-- JS `Set.delete` on the active-context list. -/
def setDelete (l : List String) (id : String) : List String :=
  l.filter (fun x => x ≠ id)

/-- `startPolling`: idempotent interval creation. -/
def toggleStartPolling (s : ToggleState) : ToggleState :=
  if s.pollTimer then s
  else { s with pollTimer := true, liveTimers := s.liveTimers + 1 }

/-- `stopPolling`: clear and null the interval if present. -/
def toggleStopPolling (s : ToggleState) : ToggleState :=
  if s.pollTimer then { s with pollTimer := false, liveTimers := s.liveTimers - 1 }
  else s

/-- JS `String.prototype.includes`, on character lists. -/
def hasInfix (sub : List Char) : List Char → Bool
  | [] => sub.isEmpty
  | c :: t => sub.isPrefixOf (c :: t) || hasInfix sub t

/-- `applyVisualState` of the toggle controller. -/
def toggleApplyVisual (target : String) (deviceType : String) (isOn : Bool)
    (iconStyle : Option String) : List Effect :=
  let st := if isOn then "on" else "off"
  let icon :=
    match iconStyle with
    | some style => Image.png ("imgs/device-types/" ++ style ++ "-" ++ st ++ ".png")
    | none =>
      let isGroup := target.startsWith "group." || hasInfix "/group.".data target.data
      if isGroup then getGroupIcon isOn none else getDeviceIcon deviceType isOn none
  [.setImage icon, .setState (if isOn then 1 else 0)]

/-- `updateState` of the toggle controller; the fetch outcome is an oracle. -/
def toggleUpdateState (s : ToggleState) (target : String) (iconStyle : Option String)
    (resp : FetchOutcome) : ToggleState × List Effect :=
  match resp.firstDevice with
  | none => (s, [.fetchInfo target])
  | some device =>
    let isOn := (device.state.bind DeviceState.on').getD false
    ({ s with deviceCache := s.deviceCache.set target ⟨device.type, isOn⟩ },
     .fetchInfo target :: toggleApplyVisual target device.type isOn iconStyle)

/-- `onWillAppear` of the toggle controller. -/
def toggleOnWillAppear (s : ToggleState) (id : String) (settings : ToggleSettings)
    (resp : FetchOutcome) : ToggleState × List Effect :=
  let s1 := { s with activeContexts := setAdd s.activeContexts id }
  let s2 := if settings.port ≠ 0 then { s1 with clientPort := settings.port } else s1
  let r :=
    if settings.target ≠ "" then toggleUpdateState s2 settings.target settings.iconStyle resp
    else (s2, [])
  (toggleStartPolling r.1, r.2)

/-- `onWillDisappear` of the toggle controller. -/
def toggleOnWillDisappear (s : ToggleState) (id : String) : ToggleState :=
  let s1 := { s with activeContexts := setDelete s.activeContexts id }
  if s1.activeContexts = [] then toggleStopPolling s1 else s1

/-- `onKeyDown` of the toggle controller; the toggle command's outcome is an oracle. -/
def toggleOnKeyDown (s : ToggleState) (settings : ToggleSettings)
    (result : CmdOutcome) : ToggleState × List Effect :=
  if settings.target = "" then (s, [.showAlert])
  else
    match result with
    | .threw => (s, [.toggleCall settings.target, .logError "Toggle error", .showAlert])
    | .ok r =>
      if r.status = "error" then
        (s, [.toggleCall settings.target,
             .logError ("Toggle failed: " ++ r.message.getD "undefined"), .showAlert])
      else
        match s.deviceCache.get? settings.target with
        | some cached =>
          let newIsOn := !cached.isOn
          ({ s with deviceCache := s.deviceCache.set settings.target ⟨cached.type, newIsOn⟩ },
           .toggleCall settings.target ::
             toggleApplyVisual settings.target cached.type newIsOn settings.iconStyle)
        | none => (s, [.toggleCall settings.target])

/-- One visible button instance as seen by the poll loop: whether the
duck-typed `setState` capability is present, and its live settings. -/
structure TogglePollCtx where
  hasSetState : Bool
  settings : ToggleSettings
deriving Repr, DecidableEq

/-- Body of one poll-timer tick of the toggle controller, iterating the
visible instances; `oracle` gives each target's fetch outcome. -/
def togglePollOnce (s : ToggleState) (ctxs : List TogglePollCtx)
    (oracle : String → FetchOutcome) : ToggleState × List Effect :=
  match ctxs with
  | [] => (s, [])
  | c :: rest =>
    if !c.hasSetState then togglePollOnce s rest oracle
    else if c.settings.target ≠ "" then
      let r := toggleUpdateState s c.settings.target c.settings.iconStyle
        (oracle c.settings.target)
      let r2 := togglePollOnce r.1 rest oracle
      (r2.1, r.2 ++ r2.2)
    else togglePollOnce s rest oracle

/-- A tick of the interval clock: the poll body runs only while an interval
is scheduled (`clearInterval` guarantees no further ticks). -/
def toggleTimerTick (s : ToggleState) (ctxs : List TogglePollCtx)
    (oracle : String → FetchOutcome) : ToggleState × List Effect :=
  if s.pollTimer then togglePollOnce s ctxs oracle else (s, [])

/-! LockAction (src/actions/lock.ts). -/

/-- Default colours of the lock controller. -/
def DEFAULT_LOCKED_COLOR : String := "#30d158"

def DEFAULT_UNLOCKED_COLOR : String := "#ff9500"

/-- `LockSettings`. -/
structure LockSettings where
  target : String
  port : ℕ
  lockedColor : Option String
  unlockedColor : Option String
deriving Repr, DecidableEq

/-- `LockCache` entry. -/
structure LockCache where
  isLocked : Bool
  icon : Option String
deriving Repr, DecidableEq

/-- Instance fields of `LockAction`.  Times are milliseconds (`Date.now()`). -/
structure LockState where
  clientPort : ℕ
  pollTimer : Bool
  liveTimers : ℕ
  activeContexts : List String
  lockCache : SMap LockCache
  optimisticUntil : SMap ℕ
deriving Repr, DecidableEq

/-- Fresh `LockAction` instance. -/
def lockInit : LockState :=
  ⟨0, false, 0, [], SMap.empty, SMap.empty⟩

/-- `applyVisualState` of the lock controller. -/
def lockApplyVisual (isLocked : Bool) (apiIcon : Option String)
    (settings : LockSettings) : List Effect :=
  let iconName := apiIcon.getD "lock"
  let color :=
    if isLocked then jsOrStr settings.lockedColor DEFAULT_LOCKED_COLOR
    else jsOrStr settings.unlockedColor DEFAULT_UNLOCKED_COLOR
  [.setImage (.rendered iconName color isLocked), .setState (if isLocked then 1 else 0)]

/-- The fetch-and-render tail of the lock `updateState` (after the hold check
and lazy delete). -/
def lockFetchAndRender (s : LockState) (target : String) (settings : LockSettings)
    (resp : FetchOutcome) : LockState × List Effect :=
  match resp.firstDevice with
  | none => (s, [.fetchInfo target])
  | some device =>
    let isLocked := (device.state.bind DeviceState.locked).getD true
    let icon := device.icon
    ({ s with lockCache := s.lockCache.set target ⟨isLocked, icon⟩ },
     .fetchInfo target :: lockApplyVisual isLocked icon settings)

/-- `updateState` of the lock controller: skip while inside an unexpired
optimistic hold (JS truthiness: a zero expiry is falsy), otherwise lazily
delete the hold and fetch. -/
def lockUpdateState (s : LockState) (target : String) (settings : LockSettings)
    (now : ℕ) (resp : FetchOutcome) : LockState × List Effect :=
  match s.optimisticUntil.get? target with
  | some holdUntil =>
    if holdUntil ≠ 0 ∧ now < holdUntil then (s, [])
    else lockFetchAndRender { s with optimisticUntil := s.optimisticUntil.erase target }
      target settings resp
  | none =>
    lockFetchAndRender { s with optimisticUntil := s.optimisticUntil.erase target }
      target settings resp

/-- `startPolling` of the lock controller. -/
def lockStartPolling (s : LockState) : LockState :=
  if s.pollTimer then s
  else { s with pollTimer := true, liveTimers := s.liveTimers + 1 }

/-- `stopPolling` of the lock controller. -/
def lockStopPolling (s : LockState) : LockState :=
  if s.pollTimer then { s with pollTimer := false, liveTimers := s.liveTimers - 1 }
  else s

/-- `onWillAppear` of the lock controller. -/
def lockOnWillAppear (s : LockState) (id : String) (settings : LockSettings)
    (now : ℕ) (resp : FetchOutcome) : LockState × List Effect :=
  let s1 := { s with activeContexts := setAdd s.activeContexts id }
  let s2 := if settings.port ≠ 0 then { s1 with clientPort := settings.port } else s1
  let r :=
    if settings.target ≠ "" then lockUpdateState s2 settings.target settings now resp
    else (s2, [])
  (lockStartPolling r.1, r.2)

/-- `onWillDisappear` of the lock controller. -/
def lockOnWillDisappear (s : LockState) (id : String) : LockState :=
  let s1 := { s with activeContexts := setDelete s.activeContexts id }
  if s1.activeContexts = [] then lockStopPolling s1 else s1

/-- `onDidReceiveSettings` of the lock controller. -/
def lockOnDidReceiveSettings (s : LockState) (settings : LockSettings)
    (now : ℕ) (resp : FetchOutcome) : LockState × List Effect :=
  let s1 := if settings.port ≠ 0 then { s with clientPort := settings.port } else s
  if settings.target ≠ "" then lockUpdateState s1 settings.target settings now resp
  else (s1, [])

/-- `onKeyDown` of the lock controller: on success the cached state is
flipped (defaulting to locked), a 30 s optimistic hold is recorded, and the
new state is rendered immediately. -/
def lockOnKeyDown (s : LockState) (settings : LockSettings) (now : ℕ)
    (result : CmdOutcome) : LockState × List Effect :=
  if settings.target = "" then (s, [.showAlert])
  else
    match result with
    | .threw => (s, [.toggleCall settings.target, .logError "Lock toggle error", .showAlert])
    | .ok r =>
      if r.status = "error" then
        (s, [.toggleCall settings.target,
             .logError ("Lock toggle failed: " ++ r.message.getD "undefined"), .showAlert])
      else
        let cached := s.lockCache.get? settings.target
        let wasLocked := (cached.map LockCache.isLocked).getD true
        let nowLocked := !wasLocked
        let cachedIcon := cached.bind LockCache.icon
        ({ s with
            lockCache := s.lockCache.set settings.target ⟨nowLocked, cachedIcon⟩,
            optimisticUntil := s.optimisticUntil.set settings.target (now + 30000) },
         .toggleCall settings.target :: lockApplyVisual nowLocked cachedIcon settings)

/-- One visible lock button instance as seen by the poll loop. -/
structure LockPollCtx where
  hasSetState : Bool
  settings : LockSettings
deriving Repr, DecidableEq

/-- Body of one poll-timer tick of the lock controller. -/
def lockPollOnce (s : LockState) (ctxs : List LockPollCtx) (now : ℕ)
    (oracle : String → FetchOutcome) : LockState × List Effect :=
  match ctxs with
  | [] => (s, [])
  | c :: rest =>
    if !c.hasSetState then lockPollOnce s rest now oracle
    else if c.settings.target ≠ "" then
      let r := lockUpdateState s c.settings.target c.settings now
        (oracle c.settings.target)
      let r2 := lockPollOnce r.1 rest now oracle
      (r2.1, r.2 ++ r2.2)
    else lockPollOnce s rest now oracle

/-- A tick of the lock interval clock: runs only while an interval is scheduled. -/
def lockTimerTick (s : LockState) (ctxs : List LockPollCtx) (now : ℕ)
    (oracle : String → FetchOutcome) : LockState × List Effect :=
  if s.pollTimer then lockPollOnce s ctxs now oracle else (s, [])

/-! GarageDoorAction (src/actions/garage-door.ts). -/

/-- `GarageDoorSettings`. -/
structure GarageDoorSettings where
  target : String
  port : ℕ
deriving Repr, DecidableEq

/-- `GarageDoorCache` entry. -/
structure GarageDoorCache where
  doorState : String
  icon : Option String
deriving Repr, DecidableEq

/-- Instance fields of `GarageDoorAction`. -/
structure GarageState where
  clientPort : ℕ
  pollTimer : Bool
  liveTimers : ℕ
  activeContexts : List String
  doorCache : SMap GarageDoorCache
  optimisticUntil : SMap ℕ
deriving Repr, DecidableEq

/-- Fresh `GarageDoorAction` instance. -/
def garageInit : GarageState :=
  ⟨0, false, 0, [], SMap.empty, SMap.empty⟩

/-- `applyVisualState` of the garage-door controller: `"open"` and
`"opening"` render as open (state 1), everything else as closed (state 0). -/
def garageApplyVisual (doorState : String) (apiIcon : Option String) : List Effect :=
  let isOpen := doorState = "open" ∨ doorState = "opening"
  [.setImage (getGarageDoorIcon (decide isOpen) apiIcon),
   .setState (if isOpen then 1 else 0)]

/-- The fetch-and-render tail of the garage-door `updateState`. -/
def garageFetchAndRender (s : GarageState) (target : String)
    (resp : FetchOutcome) : GarageState × List Effect :=
  match resp.firstDevice with
  | none => (s, [.fetchInfo target])
  | some device =>
    let doorState := (device.state.bind DeviceState.doorState).getD "closed"
    let icon := device.icon
    ({ s with doorCache := s.doorCache.set target ⟨doorState, icon⟩ },
     .fetchInfo target :: garageApplyVisual doorState icon)

/-- `updateState` of the garage-door controller, with the optimistic-hold skip. -/
def garageUpdateState (s : GarageState) (target : String) (now : ℕ)
    (resp : FetchOutcome) : GarageState × List Effect :=
  match s.optimisticUntil.get? target with
  | some holdUntil =>
    if holdUntil ≠ 0 ∧ now < holdUntil then (s, [])
    else garageFetchAndRender { s with optimisticUntil := s.optimisticUntil.erase target }
      target resp
  | none =>
    garageFetchAndRender { s with optimisticUntil := s.optimisticUntil.erase target }
      target resp

/-- `startPolling` of the garage-door controller. -/
def garageStartPolling (s : GarageState) : GarageState :=
  if s.pollTimer then s
  else { s with pollTimer := true, liveTimers := s.liveTimers + 1 }

/-- `stopPolling` of the garage-door controller. -/
def garageStopPolling (s : GarageState) : GarageState :=
  if s.pollTimer then { s with pollTimer := false, liveTimers := s.liveTimers - 1 }
  else s

/-- `onWillAppear` of the garage-door controller: renders the safe default
(closed) before the fetch resolves. -/
def garageOnWillAppear (s : GarageState) (id : String) (settings : GarageDoorSettings)
    (now : ℕ) (resp : FetchOutcome) : GarageState × List Effect :=
  let s1 := { s with activeContexts := setAdd s.activeContexts id }
  let s2 := if settings.port ≠ 0 then { s1 with clientPort := settings.port } else s1
  let preEffs := garageApplyVisual "closed" none
  let r :=
    if settings.target ≠ "" then garageUpdateState s2 settings.target now resp
    else (s2, [])
  (garageStartPolling r.1, preEffs ++ r.2)

/-- `onWillDisappear` of the garage-door controller. -/
def garageOnWillDisappear (s : GarageState) (id : String) : GarageState :=
  let s1 := { s with activeContexts := setDelete s.activeContexts id }
  if s1.activeContexts = [] then garageStopPolling s1 else s1

/-- `onDidReceiveSettings` of the garage-door controller. -/
def garageOnDidReceiveSettings (s : GarageState) (settings : GarageDoorSettings)
    (now : ℕ) (resp : FetchOutcome) : GarageState × List Effect :=
  let s1 := if settings.port ≠ 0 then { s with clientPort := settings.port } else s
  if settings.target ≠ "" then garageUpdateState s1 settings.target now resp
  else (s1, garageApplyVisual "closed" none)

/-- `onKeyDown` of the garage-door controller: on success the cached door
state (defaulting to closed) is flipped — closed/closing becomes open,
otherwise closed — a 30 s hold is recorded and the new state rendered. -/
def garageOnKeyDown (s : GarageState) (settings : GarageDoorSettings) (now : ℕ)
    (result : CmdOutcome) : GarageState × List Effect :=
  if settings.target = "" then (s, [.showAlert])
  else
    match result with
    | .threw =>
      (s, [.toggleCall settings.target, .logError "Garage door toggle error", .showAlert])
    | .ok r =>
      if r.status = "error" then
        (s, [.toggleCall settings.target,
             .logError ("Garage door toggle failed: " ++ r.message.getD "undefined"),
             .showAlert])
      else
        let cached := s.doorCache.get? settings.target
        let currentState := (cached.map GarageDoorCache.doorState).getD "closed"
        let newState :=
          if currentState = "closed" ∨ currentState = "closing" then "open" else "closed"
        let cachedIcon := cached.bind GarageDoorCache.icon
        ({ s with
            doorCache := s.doorCache.set settings.target ⟨newState, cachedIcon⟩,
            optimisticUntil := s.optimisticUntil.set settings.target (now + 30000) },
         .toggleCall settings.target :: garageApplyVisual newState cachedIcon)

/-- One visible garage-door button instance as seen by the poll loop. -/
structure GaragePollCtx where
  hasSetState : Bool
  settings : GarageDoorSettings
deriving Repr, DecidableEq

/-- Body of one poll-timer tick of the garage-door controller. -/
def garagePollOnce (s : GarageState) (ctxs : List GaragePollCtx) (now : ℕ)
    (oracle : String → FetchOutcome) : GarageState × List Effect :=
  match ctxs with
  | [] => (s, [])
  | c :: rest =>
    if !c.hasSetState then garagePollOnce s rest now oracle
    else if c.settings.target ≠ "" then
      let r := garageUpdateState s c.settings.target now
        (oracle c.settings.target)
      let r2 := garagePollOnce r.1 rest now oracle
      (r2.1, r.2 ++ r2.2)
    else garagePollOnce s rest now oracle

/-- A tick of the garage-door interval clock. -/
def garageTimerTick (s : GarageState) (ctxs : List GaragePollCtx) (now : ℕ)
    (oracle : String → FetchOutcome) : GarageState × List Effect :=
  if s.pollTimer then garagePollOnce s ctxs now oracle else (s, [])

/-! GroupAction (src/actions/group.ts) and the shared title expression. -/

/-- The inline JS title expression shared by the value-displaying controllers:
`label && value ? label + "\n" + value : (label || value)`. -/
def jsComposeTitle (label : Option String) (value : String) : String :=
  if jsTruthy label && value ≠ "" then label.getD "" ++ "\n" ++ value
  else jsOrStr label value

/-- Default colours shared by the group and thermostat controllers. -/
def DEFAULT_OFF_COLOR : String := "#8e8e93"

def DEFAULT_ON_COLOR : String := "#ff9500"

/-- `GroupSettings`. -/
structure GroupSettings where
  target : String
  port : ℕ
  label : Option String
  offColor : Option String
  onColor : Option String
deriving Repr, DecidableEq

/-- `GroupCache` entry. -/
structure GroupCache where
  isOn : Bool
  icon : Option String
  onCount : ℕ
  totalCount : ℕ
deriving Repr, DecidableEq

/-- Instance fields of `GroupAction`. -/
structure GroupState where
  clientPort : ℕ
  pollTimer : Bool
  liveTimers : ℕ
  activeContexts : List String
  groupCache : SMap GroupCache
deriving Repr, DecidableEq

/-- Fresh `GroupAction` instance. -/
def groupInit : GroupState :=
  ⟨0, false, 0, [], SMap.empty⟩

/-- Member-on test of the group fetch loop:
`state?.on ?? (state?.brightness != null && state.brightness > 0)`. -/
def groupDeviceOn (d : DeviceInfo) : Bool :=
  match d.state.bind DeviceState.on' with
  | some b => b
  | none =>
    match d.state.bind DeviceState.brightness with
    | some br => decide (br > 0)
    | none => false

/-- The group fetch loop's icon pick: first truthy member icon. -/
def groupIconScan (ds : List DeviceInfo) : Option String :=
  ds.foldl (fun icon d => if !jsTruthy icon && jsTruthy d.icon then d.icon else icon) none

/-- `buildCountString`: partial-state count, blank when all on or all off. -/
def buildCountString (onCount totalCount : ℕ) : String :=
  if totalCount = 0 then ""
  else if onCount = 0 then ""
  else if onCount = totalCount then ""
  else toString onCount ++ "/" ++ toString totalCount

/-- `applyVisualState` of the group controller. -/
def groupApplyVisual (apiIcon : Option String) (isOn : Option Bool)
    (settings : GroupSettings) : List Effect :=
  let iconName := apiIcon.getD "squares-four"
  let isOnVal := isOn.getD false
  let color :=
    if isOnVal then jsOrStr settings.onColor DEFAULT_ON_COLOR
    else jsOrStr settings.offColor DEFAULT_OFF_COLOR
  [.setImage (.rendered iconName color isOnVal), .setState (if isOnVal then 1 else 0)]

/-- `updateState` of the group controller: normalizes the response to a
member array, counts members that are on, renders state and count title. -/
def groupUpdateState (s : GroupState) (target : String) (settings : GroupSettings)
    (resp : FetchOutcome) : GroupState × List Effect :=
  match resp.deviceList with
  | none => (s, [.fetchInfo target])
  | some ds =>
    if ds.length = 0 then (s, [.fetchInfo target])
    else
      let onCount := ds.countP groupDeviceOn
      let icon := groupIconScan ds
      let totalCount := ds.length
      let isOn := decide (onCount > 0)
      let countStr := buildCountString onCount totalCount
      let title := jsComposeTitle settings.label countStr
      ({ s with groupCache := s.groupCache.set target ⟨isOn, icon, onCount, totalCount⟩ },
       .fetchInfo target :: groupApplyVisual icon (some isOn) settings ++ [.setTitle title])

/-- `onKeyDown` of the group controller: turn on when not fully on per the
cache (or the cache is absent), else turn off; optimistic update only when a
cache entry exists. -/
def groupOnKeyDown (s : GroupState) (settings : GroupSettings)
    (result : CmdOutcome) : GroupState × List Effect :=
  if settings.target = "" then (s, [.showAlert])
  else
    let cached := s.groupCache.get? settings.target
    let shouldTurnOn := !((cached.map GroupCache.isOn).getD false)
    let call : Effect :=
      if shouldTurnOn then .turnOnCall settings.target else .turnOffCall settings.target
    match result with
    | .threw => (s, [call, .logError "Group action error", .showAlert])
    | .ok r =>
      if r.status = "error" then
        (s, [call, .logError ("Group action failed: " ++ r.message.getD "undefined"),
             .showAlert])
      else
        match cached with
        | some c =>
          let newIsOn := shouldTurnOn
          let newOnCount := if newIsOn then c.totalCount else 0
          let countStr := buildCountString newOnCount c.totalCount
          let title := jsComposeTitle settings.label countStr
          ({ s with groupCache :=
              s.groupCache.set settings.target ⟨newIsOn, c.icon, newOnCount, c.totalCount⟩ },
           call :: groupApplyVisual c.icon (some newIsOn) settings ++ [.setTitle title])
        | none => (s, [call])

/-! SecuritySystemAction (part_009). -/

/-- Security-system colours. -/
def DEFAULT_DISARMED_COLOR : String := "#8e8e93"

def DEFAULT_ARMED_COLOR : String := "#30d158"

def ALARM_COLOR : String := "#ff3b30"

/-- `STATE_LABELS[n] ?? "Unknown"`. -/
def stateLabelOf (n : ℕ) : String :=
  if n = 0 then "Stay"
  else if n = 1 then "Away"
  else if n = 2 then "Night"
  else if n = 3 then "Off"
  else if n = 4 then "Alarm!"
  else "Unknown"

/-- `SecuritySystemSettings`. -/
structure SecuritySettings where
  target : String
  port : ℕ
  label : Option String
  armMode : Option ℕ
  disarmedColor : Option String
  armedColor : Option String
deriving Repr, DecidableEq

/-- `SecurityCache` entry. -/
structure SecurityCache where
  securityState : ℕ
  icon : Option String
deriving Repr, DecidableEq

/-- Instance fields of `SecuritySystemAction`. -/
structure SecSysState where
  clientPort : ℕ
  pollTimer : Bool
  liveTimers : ℕ
  activeContexts : List String
  securityCache : SMap SecurityCache
deriving Repr, DecidableEq

/-- Fresh `SecuritySystemAction` instance. -/
def securityInit : SecSysState :=
  ⟨0, false, 0, [], SMap.empty⟩

/-- `applyVisualState` of the security-system controller. -/
def securityApplyVisual (apiIcon : Option String) (securityState : Option ℕ)
    (settings : SecuritySettings) : List Effect :=
  let iconName := apiIcon.getD "shield-check"
  let st := securityState.getD 3
  let colorOn : String × Bool :=
    if st = 4 then (ALARM_COLOR, true)
    else if st = 3 then (jsOrStr settings.disarmedColor DEFAULT_DISARMED_COLOR, false)
    else (jsOrStr settings.armedColor DEFAULT_ARMED_COLOR, true)
  [.setImage (.rendered iconName colorOn.1 colorOn.2),
   .setState (if colorOn.2 then 1 else 0)]

/-- `updateState` of the security-system controller. -/
def securityUpdateState (s : SecSysState) (target : String) (settings : SecuritySettings)
    (resp : FetchOutcome) : SecSysState × List Effect :=
  match resp.firstDevice with
  | none => (s, [.fetchInfo target])
  | some device =>
    let securityState := (device.state.bind DeviceState.securityState).getD 3
    let icon := device.icon
    let stateLabel := stateLabelOf securityState
    let title :=
      if jsTruthy settings.label then settings.label.getD "" ++ "\n" ++ stateLabel
      else stateLabel
    ({ s with securityCache := s.securityCache.set target ⟨securityState, icon⟩ },
     .fetchInfo target :: securityApplyVisual icon (some securityState) settings
       ++ [.setTitle title])

/-- `onKeyDown` of the security-system controller: disarmed arms to the
configured mode (default Away = 1), alarm-triggered and armed states disarm;
optimistic update only when a cache entry exists. -/
def securityOnKeyDown (s : SecSysState) (settings : SecuritySettings)
    (result : CmdOutcome) : SecSysState × List Effect :=
  if settings.target = "" then (s, [.showAlert])
  else
    let cached := s.securityCache.get? settings.target
    let currentState := (cached.map SecurityCache.securityState).getD 3
    let callNew : Effect × ℕ :=
      if currentState = 3 then
        (.armCall settings.target (settings.armMode.getD 1), settings.armMode.getD 1)
      else if currentState = 4 then (.disarmCall settings.target, 3)
      else (.disarmCall settings.target, 3)
    match result with
    | .threw => (s, [callNew.1, .logError "Security system action error", .showAlert])
    | .ok r =>
      if r.status = "error" then
        (s, [callNew.1,
             .logError ("Security system action failed: " ++ r.message.getD "undefined"),
             .showAlert])
      else
        match cached with
        | some c =>
          let newState := callNew.2
          let stateLabel := stateLabelOf newState
          let title :=
            if jsTruthy settings.label then settings.label.getD "" ++ "\n" ++ stateLabel
            else stateLabel
          ({ s with securityCache :=
              s.securityCache.set settings.target ⟨newState, c.icon⟩ },
           callNew.1 :: securityApplyVisual c.icon (some newState) settings
             ++ [.setTitle title])
        | none => (s, [callNew.1])

/-! ThermostatAction (src/actions/thermostat.ts). -/

/-- `ThermostatSettings` (fields read defensively, so optional here). -/
structure ThermostatSettings where
  target : String
  port : ℕ
  label : Option String
  display : Option String
  offColor : Option String
  onColor : Option String
deriving Repr, DecidableEq

/-- `ThermostatCache` entry. -/
structure ThermostatCache where
  isOn : Bool
  deviceType : String
  mode : Option String
  icon : Option String
deriving Repr, DecidableEq

/-- Instance fields of `ThermostatAction`. -/
structure ThermoState where
  clientPort : ℕ
  pollTimer : Bool
  liveTimers : ℕ
  activeContexts : List String
  stateCache : SMap ThermostatCache
deriving Repr, DecidableEq

/-- Fresh `ThermostatAction` instance. -/
def thermoInit : ThermoState :=
  ⟨0, false, 0, [], SMap.empty⟩

/-- The thermostat `updateState` temperature string (the if-chain over the
effective display mode and the optional readings; rounded, not truncated). -/
def thermoTempStr (display : String) (current targetTemp : Option ℚ) : String :=
  if display = "current-target" then
    match current, targetTemp with
    | some c, some t => toString (jsRound c) ++ "°/" ++ toString (jsRound t) ++ "°"
    | some c, none => toString (jsRound c) ++ "°"
    | none, _ => ""
  else if display = "current" then
    match current with
    | some c => toString (jsRound c) ++ "°"
    | none => ""
  else if display = "target" then
    match targetTemp with
    | some t => toString (jsRound t) ++ "°"
    | none => ""
  else ""

/-- `applyVisualState` of the thermostat controller. -/
def thermoApplyVisual (isOn : Bool) (apiIcon : Option String)
    (settings : ThermostatSettings) : List Effect :=
  let iconName := apiIcon.getD "thermometer"
  let color :=
    if isOn then jsOrStr settings.onColor DEFAULT_ON_COLOR
    else jsOrStr settings.offColor DEFAULT_OFF_COLOR
  [.setImage (.rendered iconName color isOn), .setState (if isOn then 1 else 0)]

/-- `updateState` of the thermostat controller. -/
def thermoUpdateState (s : ThermoState) (target : String) (settings : ThermostatSettings)
    (resp : FetchOutcome) : ThermoState × List Effect :=
  match resp.firstDevice with
  | none => (s, [.fetchInfo target])
  | some device =>
    let st := device.state
    let isOn := (st.bind DeviceState.on').getD false
    let mode := st.bind DeviceState.mode
    let current := st.bind DeviceState.temperature
    let targetTemp := st.bind DeviceState.targetTemperature
    let display := jsOrStr settings.display "current-target"
    let icon := device.icon
    let tempStr := thermoTempStr display current targetTemp
    let title := jsComposeTitle settings.label tempStr
    ({ s with stateCache := s.stateCache.set target ⟨isOn, device.type, mode, icon⟩ },
     .fetchInfo target :: thermoApplyVisual isOn icon settings ++ [.setTitle title])

/-- `onKeyDown` of the thermostat controller. -/
def thermoOnKeyDown (s : ThermoState) (settings : ThermostatSettings)
    (result : CmdOutcome) : ThermoState × List Effect :=
  if settings.target = "" then (s, [.showAlert])
  else
    match result with
    | .threw =>
      (s, [.toggleCall settings.target, .logError "Thermostat toggle error", .showAlert])
    | .ok r =>
      if r.status = "error" then
        (s, [.toggleCall settings.target,
             .logError ("Thermostat toggle failed: " ++ r.message.getD "undefined"),
             .showAlert])
      else
        match s.stateCache.get? settings.target with
        | some cached =>
          let newIsOn := !cached.isOn
          ({ s with stateCache := (s.stateCache.set settings.target
              ⟨newIsOn, cached.deviceType, cached.mode, cached.icon⟩) },
           .toggleCall settings.target :: thermoApplyVisual newIsOn cached.icon settings)
        | none => (s, [.toggleCall settings.target])

/-! ExecuteSceneAction (src/actions/execute-scene.ts): no polling, no cache. -/

/-- The scene controller's default colour. -/
def SCENE_DEFAULT_COLOR : String := "#ff9500"

/-- `SceneSettings`. -/
structure SceneSettings where
  scene : String
  port : ℕ
  label : Option String
  color : Option String
deriving Repr, DecidableEq

/-- `onWillAppear` of the scene controller: icon from the live scene catalog
(`listScenes`) with a sparkle fallback, then
`setTitle(settings.label || scene || "")`.  `catalog = none` models a thrown
`listScenes` call. -/
def sceneOnWillAppear (settings : SceneSettings)
    (catalog : Option (List SceneInfo)) : List Effect :=
  let color := jsOrStr settings.color SCENE_DEFAULT_COLOR
  let iconEffs :=
    if settings.scene ≠ "" then
      match catalog with
      | some scenes =>
        let iconName :=
          ((scenes.find? (fun sc => sc.name == settings.scene)).bind SceneInfo.icon).getD
            "sparkle"
        [Effect.listScenesCall, .setImage (.rendered iconName color true)]
      | none => [Effect.listScenesCall, .setImage (.rendered "sparkle" color true)]
    else [Effect.setImage (.rendered "sparkle" color true)]
  iconEffs ++ [.setTitle (jsOrStr settings.label (jsOrStr (some settings.scene) ""))]

/-- `onKeyDown` of the scene controller. -/
def sceneOnKeyDown (settings : SceneSettings) (result : CmdOutcome) : List Effect :=
  if settings.scene = "" then [.showAlert]
  else
    match result with
    | .threw => [.sceneCall settings.scene, .logError "Scene execution error", .showAlert]
    | .ok r =>
      if r.status = "error" then
        [.sceneCall settings.scene,
         .logError ("Scene execution failed: " ++ r.message.getD "undefined"), .showAlert]
      else [.sceneCall settings.scene, .showOk]

/-! LightAction (src/actions/light.ts). -/

/-- `LightSettings`. -/
structure LightSettings where
  target : String
  port : ℕ
  offColor : Option String
  onColor : Option String
deriving Repr, DecidableEq

/-- `LightCache` entry. -/
structure LightCache where
  isOn : Bool
  icon : Option String
  brightness : Option ℚ
deriving Repr, DecidableEq

/-- Instance fields of `LightAction`. -/
structure LightState where
  clientPort : ℕ
  pollTimer : Bool
  liveTimers : ℕ
  activeContexts : List String
  lightCache : SMap LightCache
deriving Repr, DecidableEq

/-- Fresh `LightAction` instance. -/
def lightInit : LightState :=
  ⟨0, false, 0, [], SMap.empty⟩

/-- `applyVisualState` of the light controller: the rendered icon carries a
brightness percentage while the light is on and a brightness is known. -/
def lightApplyVisual (apiIcon : Option String) (isOn : Option Bool)
    (settings : LightSettings) (brightness : Option ℚ) : List Effect :=
  let iconName := apiIcon.getD "lightbulb"
  let onVal := isOn.getD false
  let color :=
    if onVal then jsOrStr settings.onColor DEFAULT_ON_COLOR
    else jsOrStr settings.offColor DEFAULT_OFF_COLOR
  let text :=
    if onVal then
      match brightness with
      | some b => some (toString (jsRound b) ++ "%")
      | none => none
    else none
  [.setImage (.renderedText iconName color onVal text),
   .setState (if onVal then 1 else 0)]

/-- `updateState` of the light controller:
`state?.on ?? (state?.brightness != null && state.brightness > 0)`. -/
def lightUpdateState (s : LightState) (target : String) (settings : LightSettings)
    (resp : FetchOutcome) : LightState × List Effect :=
  match resp.firstDevice with
  | none => (s, [.fetchInfo target])
  | some device =>
    let st := device.state
    let isOn :=
      match st.bind DeviceState.on' with
      | some b => b
      | none =>
        match st.bind DeviceState.brightness with
        | some br => decide (br > 0)
        | none => false
    let icon := device.icon
    let brightness := st.bind DeviceState.brightness
    ({ s with lightCache := s.lightCache.set target ⟨isOn, icon, brightness⟩ },
     .fetchInfo target :: lightApplyVisual icon (some isOn) settings brightness)

/-! Percent-encoding lemmas. -/

theorem hexVal_hexDigit (n : ℕ) (h : n < 16) : hexVal (hexDigit n) = some n := by
  interval_cases n <;> decide

theorem hexDigit_ne_47 (n : ℕ) (h : n < 16) : hexDigit n ≠ 47 := by
  interval_cases n <;> decide

theorem unreserved_ne_37 (b : ℕ) (h : isUnreservedByte b = true) : b ≠ 37 := by
  intro e
  subst e
  exact absurd h (by decide)

theorem unreserved_ne_47 (b : ℕ) (h : isUnreservedByte b = true) : b ≠ 47 := by
  intro e
  subst e
  exact absurd h (by decide)

/-- Decoding inverts encoding, bytewise. -/
theorem percentDecode_percentEncode (bs : List ℕ) (h : ∀ b ∈ bs, b < 256) :
    percentDecode (percentEncode bs) = some bs := by
  induction bs with
  | nil => rfl
  | cons b t ih =>
    have hb : b < 256 := h b (List.mem_cons_self b t)
    have ht : ∀ x ∈ t, x < 256 := fun x hx => h x (List.mem_cons_of_mem b hx)
    rw [percentEncode]
    by_cases hu : isUnreservedByte b
    · rw [if_pos hu, percentDecode.eq_def]
      simp only [if_neg (unreserved_ne_37 b hu), ih ht, Option.map_some']
    · have h1 := hexVal_hexDigit (b / 16) (Nat.div_lt_of_lt_mul (by omega))
      have h2 := hexVal_hexDigit (b % 16) (Nat.mod_lt b (by omega))
      rw [if_neg hu, percentDecode.eq_def]
      simp only [if_pos rfl, h1, h2, ih ht, Option.map_some']
      simp [Nat.div_add_mod]

/-- The encoded target is a single path segment: no unescaped slash (47). -/
theorem percentEncode_no_slash (bs : List ℕ) (h : ∀ b ∈ bs, b < 256) :
    47 ∉ percentEncode bs := by
  induction bs with
  | nil => simp [percentEncode]
  | cons b t ih =>
    have hb : b < 256 := h b (List.mem_cons_self b t)
    have ht : ∀ x ∈ t, x < 256 := fun x hx => h x (List.mem_cons_of_mem b hx)
    rw [percentEncode]
    by_cases hu : isUnreservedByte b
    · rw [if_pos hu]
      intro hmem
      rcases List.mem_cons.mp hmem with he | hrest
      · exact unreserved_ne_47 b hu he.symm
      · exact ih ht hrest
    · rw [if_neg hu]
      intro hmem
      rcases List.mem_cons.mp hmem with he | hmem2
      · exact absurd he.symm (by decide)
      rcases List.mem_cons.mp hmem2 with he | hmem3
      · exact hexDigit_ne_47 (b / 16) (Nat.div_lt_of_lt_mul (by omega)) he.symm
      rcases List.mem_cons.mp hmem3 with he | hrest
      · exact hexDigit_ne_47 (b % 16) (Nat.mod_lt b (by omega)) he.symm
      · exact ih ht hrest

/-- C9: every client operation embeds the Target in the request path as a
single percent-encoded segment (no unescaped `/`), and decoding that segment
reproduces the original Target exactly. -/
theorem client_paths_roundtrip_target (t : List ℕ) (h : ∀ b ∈ t, b < 256) :
    ∃ seg,
      getDeviceInfoPath t = strBytes "/info/" ++ seg ∧
      togglePath t = strBytes "/toggle/" ++ seg ∧
      turnOnPath t = strBytes "/on/" ++ seg ∧
      turnOffPath t = strBytes "/off/" ++ seg ∧
      executeScenePath t = strBytes "/scene/" ++ seg ∧
      47 ∉ seg ∧
      percentDecode seg = some t := by
  refine ⟨percentEncode t, rfl, rfl, rfl, rfl, rfl, percentEncode_no_slash t h,
    percentDecode_percentEncode t h⟩

/-- Witness for C9 at the Target "Living Room/Ceiling Lamp". -/
theorem client_paths_roundtrip_target_witness :
    ∃ seg,
      getDeviceInfoPath (strBytes "Living Room/Ceiling Lamp") = strBytes "/info/" ++ seg ∧
      togglePath (strBytes "Living Room/Ceiling Lamp") = strBytes "/toggle/" ++ seg ∧
      turnOnPath (strBytes "Living Room/Ceiling Lamp") = strBytes "/on/" ++ seg ∧
      turnOffPath (strBytes "Living Room/Ceiling Lamp") = strBytes "/off/" ++ seg ∧
      executeScenePath (strBytes "Living Room/Ceiling Lamp") = strBytes "/scene/" ++ seg ∧
      47 ∉ seg ∧
      percentDecode seg = some (strBytes "Living Room/Ceiling Lamp") :=
  client_paths_roundtrip_target (strBytes "Living Room/Ceiling Lamp") (by decide)

/-! C6: security client operations. -/

/-- The security visual push contains no client calls. -/
theorem securityApplyVisual_no_client (apiIcon : Option String) (st : Option ℕ)
    (settings : SecuritySettings) :
    ∀ e ∈ securityApplyVisual apiIcon st settings, e.isClientCall = false := by
  intro e he
  simp only [securityApplyVisual, List.mem_cons, List.mem_singleton,
    List.not_mem_nil, or_false] at he
  rcases he with hx | hx <;> subst hx <;> rfl

/-- C6: the client exposes `armSecurity(target, mode)` for modes 0, 1, 2 and
`disarmSecurity(target)`, issuing GETs to `/security/arm/{mode}/{target}` and
`/security/disarm/{target}` with the target percent-encoded (round-trippable,
single segment); and every client method the security-system `onKeyDown`
invokes is one of these two operations, with an in-range mode. -/
theorem security_client_methods (t : List ℕ) (ht : ∀ b ∈ t, b < 256) :
    (∀ m, m = 0 ∨ m = 1 ∨ m = 2 →
      armSecurityPath m t =
        strBytes "/security/arm/" ++ strBytes (toString m) ++ strBytes "/" ++
          percentEncode t ∧
      47 ∉ percentEncode t ∧ percentDecode (percentEncode t) = some t) ∧
    (disarmSecurityPath t = strBytes "/security/disarm/" ++ percentEncode t ∧
      47 ∉ percentEncode t ∧ percentDecode (percentEncode t) = some t) ∧
    (∀ s settings result,
      settings.armMode = none ∨ settings.armMode = some 0 ∨
        settings.armMode = some 1 ∨ settings.armMode = some 2 →
      ∀ e ∈ (securityOnKeyDown s settings result).2, e.isClientCall = true →
        (∃ m, e = Effect.armCall settings.target m ∧ (m = 0 ∨ m = 1 ∨ m = 2)) ∨
          e = Effect.disarmCall settings.target) := by
  refine ⟨fun m _ => ⟨rfl, percentEncode_no_slash t ht, percentDecode_percentEncode t ht⟩,
    ⟨rfl, percentEncode_no_slash t ht, percentDecode_percentEncode t ht⟩,
    fun s settings result hmode e he hcall => ?_⟩
  have hm : settings.armMode.getD 1 = 0 ∨ settings.armMode.getD 1 = 1 ∨
      settings.armMode.getD 1 = 2 := by
    rcases hmode with h | h | h | h <;> simp [h]
  by_cases htgt : settings.target = ""
  · simp only [securityOnKeyDown, if_pos htgt, List.mem_singleton] at he
    subst he
    simp [Effect.isClientCall] at hcall
  cases result with
  | threw =>
    simp only [securityOnKeyDown, if_neg htgt, List.mem_cons, List.not_mem_nil,
      or_false] at he
    rcases he with hx | hx | hx
    · subst hx
      split
      · exact Or.inl ⟨settings.armMode.getD 1, rfl, hm⟩
      · split
        · exact Or.inr rfl
        · exact Or.inr rfl
    · subst hx
      simp [Effect.isClientCall] at hcall
    · subst hx
      simp [Effect.isClientCall] at hcall
  | ok r =>
    by_cases herr : r.status = "error"
    · simp only [securityOnKeyDown, if_neg htgt, herr, if_true, List.mem_cons,
        List.not_mem_nil, or_false] at he
      rcases he with hx | hx | hx
      · subst hx
        split
        · exact Or.inl ⟨settings.armMode.getD 1, rfl, hm⟩
        · split
          · exact Or.inr rfl
          · exact Or.inr rfl
      · subst hx
        simp [Effect.isClientCall] at hcall
      · subst hx
        simp [Effect.isClientCall] at hcall
    · cases hcc : s.securityCache.get? settings.target with
      | some c =>
        simp only [securityOnKeyDown, if_neg htgt, herr, if_false, hcc,
          List.mem_cons, List.mem_append, List.mem_singleton] at he
        rcases he with (hx | hvis) | hst | hnil
        · subst hx
          split
          · exact Or.inl ⟨settings.armMode.getD 1, rfl, hm⟩
          · split
            · exact Or.inr rfl
            · exact Or.inr rfl
        · rw [securityApplyVisual_no_client _ _ _ _ hvis] at hcall
          exact absurd hcall (by decide)
        · subst hst
          simp [Effect.isClientCall] at hcall
        · exact absurd hnil (List.not_mem_nil e)
      | none =>
        simp only [securityOnKeyDown, if_neg htgt, herr, if_false, hcc,
          List.mem_singleton] at he
        subst he
        split
        · exact Or.inl ⟨settings.armMode.getD 1, rfl, hm⟩
        · split
          · exact Or.inr rfl
          · exact Or.inr rfl

/-- Witness for C6 at the Target "Home/Alarm System". -/
theorem security_client_methods_witness :
    (∀ m, m = 0 ∨ m = 1 ∨ m = 2 →
      armSecurityPath m (strBytes "Home/Alarm System") =
        strBytes "/security/arm/" ++ strBytes (toString m) ++ strBytes "/" ++
          percentEncode (strBytes "Home/Alarm System") ∧
      47 ∉ percentEncode (strBytes "Home/Alarm System") ∧
      percentDecode (percentEncode (strBytes "Home/Alarm System")) =
        some (strBytes "Home/Alarm System")) ∧
    (disarmSecurityPath (strBytes "Home/Alarm System") =
        strBytes "/security/disarm/" ++ percentEncode (strBytes "Home/Alarm System") ∧
      47 ∉ percentEncode (strBytes "Home/Alarm System") ∧
      percentDecode (percentEncode (strBytes "Home/Alarm System")) =
        some (strBytes "Home/Alarm System")) ∧
    (∀ s settings result,
      settings.armMode = none ∨ settings.armMode = some 0 ∨
        settings.armMode = some 1 ∨ settings.armMode = some 2 →
      ∀ e ∈ (securityOnKeyDown s settings result).2, e.isClientCall = true →
        (∃ m, e = Effect.armCall settings.target m ∧ (m = 0 ∨ m = 1 ∨ m = 2)) ∨
          e = Effect.disarmCall settings.target) :=
  security_client_methods (strBytes "Home/Alarm System") (by decide)

/-! C3: KeyDown with no configured target. -/

/-- C3: for every embedded controller with a KeyDown handler, when the
settings carry no target (no scene, for the scene controller) KeyDown emits
exactly the failure indicator: no client call, no log write, no visual
change, and the controller state (cache and hold maps included) is
unchanged. -/
theorem keydown_no_target_alert_only
    (ts : ToggleSettings) (ls : LockSettings) (gds : GarageDoorSettings)
    (grs : GroupSettings) (ses : SecuritySettings) (ths : ThermostatSettings)
    (scs : SceneSettings)
    (h1 : ts.target = "") (h2 : ls.target = "") (h3 : gds.target = "")
    (h4 : grs.target = "") (h5 : ses.target = "") (h6 : ths.target = "")
    (h7 : scs.scene = "") :
    (∀ s result, toggleOnKeyDown s ts result = (s, [Effect.showAlert])) ∧
    (∀ s now result, lockOnKeyDown s ls now result = (s, [Effect.showAlert])) ∧
    (∀ s now result, garageOnKeyDown s gds now result = (s, [Effect.showAlert])) ∧
    (∀ s result, groupOnKeyDown s grs result = (s, [Effect.showAlert])) ∧
    (∀ s result, securityOnKeyDown s ses result = (s, [Effect.showAlert])) ∧
    (∀ s result, thermoOnKeyDown s ths result = (s, [Effect.showAlert])) ∧
    (∀ result, sceneOnKeyDown scs result = [Effect.showAlert]) := by
  refine ⟨?_, ?_, ?_, ?_, ?_, ?_, ?_⟩ <;> intros <;>
    simp [toggleOnKeyDown, lockOnKeyDown, garageOnKeyDown, groupOnKeyDown,
      securityOnKeyDown, thermoOnKeyDown, sceneOnKeyDown, h1, h2, h3, h4, h5, h6, h7]

/-- Witness for C3 at empty settings for each controller. -/
theorem keydown_no_target_alert_only_witness :
    toggleOnKeyDown toggleInit ⟨"", 0, none⟩ .threw = (toggleInit, [Effect.showAlert]) ∧
    lockOnKeyDown lockInit ⟨"", 0, none, none⟩ 5 .threw = (lockInit, [Effect.showAlert]) ∧
    garageOnKeyDown garageInit ⟨"", 0⟩ 5 .threw = (garageInit, [Effect.showAlert]) ∧
    groupOnKeyDown groupInit ⟨"", 0, none, none, none⟩ .threw =
      (groupInit, [Effect.showAlert]) ∧
    securityOnKeyDown securityInit ⟨"", 0, none, none, none, none⟩ .threw =
      (securityInit, [Effect.showAlert]) ∧
    thermoOnKeyDown thermoInit ⟨"", 0, none, none, none, none⟩ .threw =
      (thermoInit, [Effect.showAlert]) ∧
    sceneOnKeyDown ⟨"", 0, none, none⟩ .threw = [Effect.showAlert] := by
  have T := keydown_no_target_alert_only ⟨"", 0, none⟩ ⟨"", 0, none, none⟩ ⟨"", 0⟩
    ⟨"", 0, none, none, none⟩ ⟨"", 0, none, none, none, none⟩
    ⟨"", 0, none, none, none, none⟩ ⟨"", 0, none, none⟩
    rfl rfl rfl rfl rfl rfl rfl
  exact ⟨T.1 toggleInit .threw, T.2.1 lockInit 5 .threw, T.2.2.1 garageInit 5 .threw,
    T.2.2.2.1 groupInit .threw, T.2.2.2.2.1 securityInit .threw,
    T.2.2.2.2.2.1 thermoInit .threw, T.2.2.2.2.2.2 .threw⟩

/-! C4: absent primary state field renders the documented default. -/

/-- C4 counterexample: the light controller does not render the documented
default when `on` is absent — a snapshot whose state is `{brightness: 80}`
lacks the primary field `on` yet renders on (state 1), because the light
falls back to `brightness > 0`. -/
theorem light_absent_on_renders_on :
    ((⟨"light", none, some { DeviceState.blank with brightness := some 80 }⟩ :
        DeviceInfo).state.bind DeviceState.on' = none) ∧
    Effect.setState 1 ∈ (lightUpdateState lightInit "L" ⟨"L", 0, none, none⟩
      (.single ⟨"light", none,
        some { DeviceState.blank with brightness := some 80 }⟩)).2 := by
  refine ⟨rfl, ?_⟩
  simp [lightUpdateState, FetchOutcome.firstDevice, lightApplyVisual, DeviceState.blank]

/-- C4 (amended): a successful fetch whose snapshot lacks the capability's
primary state field renders the documented default: toggle off (state 0),
lock locked (state 1), garage door closed (state 0), security system
disarmed (state 0, cached state 3) — except the light controller, which
when `on` is absent falls back to brightness: off when `brightness` is also
absent, on when `brightness` is present and positive. -/
theorem fetch_absent_primary_defaults
    (dT dL dG dS dLi dLb : DeviceInfo)
    (hT : dT.state.bind DeviceState.on' = none)
    (hL : dL.state.bind DeviceState.locked = none)
    (hG : dG.state.bind DeviceState.doorState = none)
    (hS : dS.state.bind DeviceState.securityState = none)
    (hLi1 : dLi.state.bind DeviceState.on' = none)
    (hLi2 : dLi.state.bind DeviceState.brightness = none)
    (hLb1 : dLb.state.bind DeviceState.on' = none)
    (hLb2 : ∃ br, dLb.state.bind DeviceState.brightness = some br ∧ 0 < br) :
    (∀ s target style,
      (toggleUpdateState s target style (.single dT)).1.deviceCache.get? target =
        some ⟨dT.type, false⟩ ∧
      Effect.setState 0 ∈ (toggleUpdateState s target style (.single dT)).2) ∧
    (∀ s target ls now, s.optimisticUntil.get? target = none →
      (lockUpdateState s target ls now (.single dL)).1.lockCache.get? target =
        some ⟨true, dL.icon⟩ ∧
      Effect.setState 1 ∈ (lockUpdateState s target ls now (.single dL)).2) ∧
    (∀ s target now, s.optimisticUntil.get? target = none →
      (garageUpdateState s target now (.single dG)).1.doorCache.get? target =
        some ⟨"closed", dG.icon⟩ ∧
      Effect.setState 0 ∈ (garageUpdateState s target now (.single dG)).2) ∧
    (∀ s target ses,
      (securityUpdateState s target ses (.single dS)).1.securityCache.get? target =
        some ⟨3, dS.icon⟩ ∧
      Effect.setState 0 ∈ (securityUpdateState s target ses (.single dS)).2) ∧
    (∀ s target lset,
      Effect.setState 0 ∈ (lightUpdateState s target lset (.single dLi)).2) ∧
    (∀ s target lset,
      Effect.setState 1 ∈ (lightUpdateState s target lset (.single dLb)).2) := by
  obtain ⟨br, hbr, hbrpos⟩ := hLb2
  refine ⟨fun s target style => ?_, fun s target ls now hh => ?_,
    fun s target now hh => ?_, fun s target ses => ?_, fun s target lset => ?_,
    fun s target lset => ?_⟩
  · constructor
    · simp [toggleUpdateState, FetchOutcome.firstDevice, hT, SMap.get?_set_self]
    · simp [toggleUpdateState, FetchOutcome.firstDevice, hT, toggleApplyVisual]
  · constructor
    · simp [lockUpdateState, hh, lockFetchAndRender, FetchOutcome.firstDevice, hL,
        SMap.get?_set_self]
    · simp [lockUpdateState, hh, lockFetchAndRender, FetchOutcome.firstDevice, hL,
        lockApplyVisual]
  · constructor
    · simp [garageUpdateState, hh, garageFetchAndRender, FetchOutcome.firstDevice, hG,
        SMap.get?_set_self]
    · simp [garageUpdateState, hh, garageFetchAndRender, FetchOutcome.firstDevice, hG,
        garageApplyVisual]
  · constructor
    · simp [securityUpdateState, FetchOutcome.firstDevice, hS, SMap.get?_set_self]
    · simp [securityUpdateState, FetchOutcome.firstDevice, hS, securityApplyVisual]
  · simp [lightUpdateState, FetchOutcome.firstDevice, hLi1, hLi2, lightApplyVisual]
  · simp [lightUpdateState, FetchOutcome.firstDevice, hLb1, hbr, hbrpos,
      lightApplyVisual]

/-- Witness for C4 at snapshots with an empty state object, with no state,
and light snapshots with brightness absent / brightness 80. -/
theorem fetch_absent_primary_defaults_witness :
    ((toggleUpdateState toggleInit "D" none
        (.single ⟨"light", none, some DeviceState.blank⟩)).1.deviceCache.get? "D" =
      some ⟨"light", false⟩ ∧
     Effect.setState 0 ∈ (toggleUpdateState toggleInit "D" none
        (.single ⟨"light", none, some DeviceState.blank⟩)).2) ∧
    ((lockUpdateState lockInit "D" ⟨"D", 0, none, none⟩ 7
        (.single ⟨"lock", none, none⟩)).1.lockCache.get? "D" = some ⟨true, none⟩ ∧
     Effect.setState 1 ∈ (lockUpdateState lockInit "D" ⟨"D", 0, none, none⟩ 7
        (.single ⟨"lock", none, none⟩)).2) ∧
    ((garageUpdateState garageInit "D" 7
        (.single ⟨"garage-door", none, none⟩)).1.doorCache.get? "D" =
      some ⟨"closed", none⟩ ∧
     Effect.setState 0 ∈ (garageUpdateState garageInit "D" 7
        (.single ⟨"garage-door", none, none⟩)).2) ∧
    ((securityUpdateState securityInit "D" ⟨"D", 0, none, none, none, none⟩
        (.single ⟨"security-system", none, some DeviceState.blank⟩)).1.securityCache.get?
        "D" = some ⟨3, none⟩ ∧
     Effect.setState 0 ∈ (securityUpdateState securityInit "D"
        ⟨"D", 0, none, none, none, none⟩
        (.single ⟨"security-system", none, some DeviceState.blank⟩)).2) ∧
    Effect.setState 0 ∈ (lightUpdateState lightInit "D" ⟨"D", 0, none, none⟩
      (.single ⟨"light", none, some DeviceState.blank⟩)).2 ∧
    Effect.setState 1 ∈ (lightUpdateState lightInit "D" ⟨"D", 0, none, none⟩
      (.single ⟨"light", none,
        some { DeviceState.blank with brightness := some 80 }⟩)).2 := by
  have T := fetch_absent_primary_defaults ⟨"light", none, some DeviceState.blank⟩
    ⟨"lock", none, none⟩ ⟨"garage-door", none, none⟩
    ⟨"security-system", none, some DeviceState.blank⟩
    ⟨"light", none, some DeviceState.blank⟩
    ⟨"light", none, some { DeviceState.blank with brightness := some 80 }⟩
    rfl rfl rfl rfl rfl rfl rfl ⟨80, rfl, by norm_num⟩
  exact ⟨T.1 toggleInit "D" none, T.2.1 lockInit "D" ⟨"D", 0, none, none⟩ 7 rfl,
    T.2.2.1 garageInit "D" 7 rfl,
    T.2.2.2.1 securityInit "D" ⟨"D", 0, none, none, none, none⟩,
    T.2.2.2.2.1 lightInit "D" ⟨"D", 0, none, none⟩,
    T.2.2.2.2.2 lightInit "D" ⟨"D", 0, none, none⟩⟩

/-! Hold-window lemmas for the lock and garage-door controllers. -/

theorem lockUpdateState_held (s : LockState) (target : String) (ls : LockSettings)
    (now h : ℕ) (resp : FetchOutcome)
    (hh : s.optimisticUntil.get? target = some h) (hlt : now < h) :
    lockUpdateState s target ls now resp = (s, []) := by
  simp only [lockUpdateState, hh]
  rw [if_pos ⟨by omega, hlt⟩]

theorem lockFetchAndRender_optimistic (s : LockState) (target : String)
    (ls : LockSettings) (resp : FetchOutcome) :
    (lockFetchAndRender s target ls resp).1.optimisticUntil = s.optimisticUntil := by
  cases hfd : resp.firstDevice <;> simp [lockFetchAndRender, hfd]

theorem lockFetchAndRender_fetches (s : LockState) (target : String)
    (ls : LockSettings) (resp : FetchOutcome) :
    Effect.fetchInfo target ∈ (lockFetchAndRender s target ls resp).2 := by
  cases hfd : resp.firstDevice <;> simp [lockFetchAndRender, hfd, lockApplyVisual]

theorem lockUpdateState_expired (s : LockState) (target : String) (ls : LockSettings)
    (now h : ℕ) (resp : FetchOutcome)
    (hh : s.optimisticUntil.get? target = some h) (hge : h ≤ now) :
    (lockUpdateState s target ls now resp).1.optimisticUntil.get? target = none ∧
    Effect.fetchInfo target ∈ (lockUpdateState s target ls now resp).2 := by
  simp only [lockUpdateState, hh]
  rw [if_neg (by omega)]
  exact ⟨by rw [lockFetchAndRender_optimistic]; exact SMap.get?_erase_self _ _,
    lockFetchAndRender_fetches _ _ _ _⟩

theorem garageUpdateState_held (s : GarageState) (target : String)
    (now h : ℕ) (resp : FetchOutcome)
    (hh : s.optimisticUntil.get? target = some h) (hlt : now < h) :
    garageUpdateState s target now resp = (s, []) := by
  simp only [garageUpdateState, hh]
  rw [if_pos ⟨by omega, hlt⟩]

theorem garageFetchAndRender_optimistic (s : GarageState) (target : String)
    (resp : FetchOutcome) :
    (garageFetchAndRender s target resp).1.optimisticUntil = s.optimisticUntil := by
  cases hfd : resp.firstDevice <;> simp [garageFetchAndRender, hfd]

theorem garageFetchAndRender_fetches (s : GarageState) (target : String)
    (resp : FetchOutcome) :
    Effect.fetchInfo target ∈ (garageFetchAndRender s target resp).2 := by
  cases hfd : resp.firstDevice <;> simp [garageFetchAndRender, hfd, garageApplyVisual]

theorem garageUpdateState_expired (s : GarageState) (target : String)
    (now h : ℕ) (resp : FetchOutcome)
    (hh : s.optimisticUntil.get? target = some h) (hge : h ≤ now) :
    (garageUpdateState s target now resp).1.optimisticUntil.get? target = none ∧
    Effect.fetchInfo target ∈ (garageUpdateState s target now resp).2 := by
  simp only [garageUpdateState, hh]
  rw [if_neg (by omega)]
  exact ⟨by rw [garageFetchAndRender_optimistic]; exact SMap.get?_erase_self _ _,
    garageFetchAndRender_fetches _ _ _⟩

theorem lockStartPolling_lockCache (s : LockState) :
    (lockStartPolling s).lockCache = s.lockCache := by
  unfold lockStartPolling
  split <;> rfl

theorem lockStartPolling_optimistic (s : LockState) :
    (lockStartPolling s).optimisticUntil = s.optimisticUntil := by
  unfold lockStartPolling
  split <;> rfl

theorem garageStartPolling_doorCache (s : GarageState) :
    (garageStartPolling s).doorCache = s.doorCache := by
  unfold garageStartPolling
  split <;> rfl

theorem garageStartPolling_optimistic (s : GarageState) :
    (garageStartPolling s).optimisticUntil = s.optimisticUntil := by
  unfold garageStartPolling
  split <;> rfl

theorem lock_portSwap_optimistic (x : LockState) (c : Prop) [Decidable c] (p : ℕ) :
    (if c then { x with clientPort := p } else x).optimisticUntil = x.optimisticUntil := by
  split <;> rfl

theorem lock_portSwap_lockCache (x : LockState) (c : Prop) [Decidable c] (p : ℕ) :
    (if c then { x with clientPort := p } else x).lockCache = x.lockCache := by
  split <;> rfl

theorem garage_portSwap_optimistic (x : GarageState) (c : Prop) [Decidable c] (p : ℕ) :
    (if c then { x with clientPort := p } else x).optimisticUntil = x.optimisticUntil := by
  split <;> rfl

theorem garage_portSwap_doorCache (x : GarageState) (c : Prop) [Decidable c] (p : ℕ) :
    (if c then { x with clientPort := p } else x).doorCache = x.doorCache := by
  split <;> rfl

/-- C10: while an optimistic hold is unexpired (`now < holdExpiry`), every
fetch-and-render path of the lock and garage-door controllers — WillAppear
and DidReceiveSettings, not only the poll tick — returns before any network
call and leaves the cache, the hold map and the rendered visual unchanged,
apart from the garage door's pre-fetch default (closed) render on appear. -/
theorem hold_suppresses_appear_and_settings
    (sl : LockState) (ls : LockSettings) (sg : GarageState) (gds : GarageDoorSettings)
    (now hLock hGar : ℕ) (id : String) (respL respG : FetchOutcome)
    (htgtL : ls.target ≠ "") (htgtG : gds.target ≠ "")
    (hhL : sl.optimisticUntil.get? ls.target = some hLock) (hltL : now < hLock)
    (hhG : sg.optimisticUntil.get? gds.target = some hGar) (hltG : now < hGar) :
    ((lockOnWillAppear sl id ls now respL).2 = [] ∧
     (lockOnWillAppear sl id ls now respL).1.lockCache = sl.lockCache ∧
     (lockOnWillAppear sl id ls now respL).1.optimisticUntil = sl.optimisticUntil) ∧
    ((lockOnDidReceiveSettings sl ls now respL).2 = [] ∧
     (lockOnDidReceiveSettings sl ls now respL).1.lockCache = sl.lockCache ∧
     (lockOnDidReceiveSettings sl ls now respL).1.optimisticUntil = sl.optimisticUntil) ∧
    ((garageOnWillAppear sg id gds now respG).2 = garageApplyVisual "closed" none ∧
     (garageOnWillAppear sg id gds now respG).1.doorCache = sg.doorCache ∧
     (garageOnWillAppear sg id gds now respG).1.optimisticUntil = sg.optimisticUntil) ∧
    ((garageOnDidReceiveSettings sg gds now respG).2 = [] ∧
     (garageOnDidReceiveSettings sg gds now respG).1.doorCache = sg.doorCache ∧
     (garageOnDidReceiveSettings sg gds now respG).1.optimisticUntil =
       sg.optimisticUntil) := by
  have hUL : ∀ s' : LockState, s'.optimisticUntil.get? ls.target = some hLock →
      lockUpdateState s' ls.target ls now respL = (s', []) := fun s' hs' =>
    lockUpdateState_held s' ls.target ls now hLock respL hs' hltL
  have hUG : ∀ s' : GarageState, s'.optimisticUntil.get? gds.target = some hGar →
      garageUpdateState s' gds.target now respG = (s', []) := fun s' hs' =>
    garageUpdateState_held s' gds.target now hGar respG hs' hltG
  refine ⟨⟨?_, ?_, ?_⟩, ⟨?_, ?_, ?_⟩, ⟨?_, ?_, ?_⟩, ⟨?_, ?_, ?_⟩⟩
  · simp only [lockOnWillAppear]
    rw [if_pos htgtL, hUL]
    split <;> exact hhL
  · simp only [lockOnWillAppear]
    rw [if_pos htgtL, hUL]
    · rw [lockStartPolling_lockCache]
      split <;> rfl
    · split <;> exact hhL
  · simp only [lockOnWillAppear]
    rw [if_pos htgtL, hUL]
    · rw [lockStartPolling_optimistic]
      split <;> rfl
    · split <;> exact hhL
  · simp only [lockOnDidReceiveSettings]
    rw [if_pos htgtL, hUL]
    split <;> exact hhL
  · simp only [lockOnDidReceiveSettings]
    rw [if_pos htgtL, hUL]
    · split <;> rfl
    · split <;> exact hhL
  · simp only [lockOnDidReceiveSettings]
    rw [if_pos htgtL, hUL]
    · split <;> rfl
    · split <;> exact hhL
  · simp only [garageOnWillAppear]
    rw [if_pos htgtG, hUG]
    · simp
    · split <;> exact hhG
  · simp only [garageOnWillAppear]
    rw [if_pos htgtG, hUG]
    · rw [garageStartPolling_doorCache]
      split <;> rfl
    · split <;> exact hhG
  · simp only [garageOnWillAppear]
    rw [if_pos htgtG, hUG]
    · rw [garageStartPolling_optimistic]
      split <;> rfl
    · split <;> exact hhG
  · simp only [garageOnDidReceiveSettings]
    rw [if_pos htgtG, hUG]
    split <;> exact hhG
  · simp only [garageOnDidReceiveSettings]
    rw [if_pos htgtG, hUG]
    · split <;> rfl
    · split <;> exact hhG
  · simp only [garageOnDidReceiveSettings]
    rw [if_pos htgtG, hUG]
    · split <;> rfl
    · split <;> exact hhG

/-- Witness for C10 at a held lock and garage-door target. -/
theorem hold_suppresses_appear_and_settings_witness :
    (let sl : LockState := { lockInit with optimisticUntil := SMap.empty.set "L" 9000 }
     let sg : GarageState := { garageInit with optimisticUntil := SMap.empty.set "G" 9000 }
     ((lockOnWillAppear sl "ctx" ⟨"L", 0, none, none⟩ 100 .fail).2 = [] ∧
      (lockOnWillAppear sl "ctx" ⟨"L", 0, none, none⟩ 100 .fail).1.lockCache =
        sl.lockCache ∧
      (lockOnWillAppear sl "ctx" ⟨"L", 0, none, none⟩ 100 .fail).1.optimisticUntil =
        sl.optimisticUntil) ∧
     ((lockOnDidReceiveSettings sl ⟨"L", 0, none, none⟩ 100 .fail).2 = [] ∧
      (lockOnDidReceiveSettings sl ⟨"L", 0, none, none⟩ 100 .fail).1.lockCache =
        sl.lockCache ∧
      (lockOnDidReceiveSettings sl ⟨"L", 0, none, none⟩ 100 .fail).1.optimisticUntil =
        sl.optimisticUntil) ∧
     ((garageOnWillAppear sg "ctx" ⟨"G", 0⟩ 100 .fail).2 =
        garageApplyVisual "closed" none ∧
      (garageOnWillAppear sg "ctx" ⟨"G", 0⟩ 100 .fail).1.doorCache = sg.doorCache ∧
      (garageOnWillAppear sg "ctx" ⟨"G", 0⟩ 100 .fail).1.optimisticUntil =
        sg.optimisticUntil) ∧
     ((garageOnDidReceiveSettings sg ⟨"G", 0⟩ 100 .fail).2 = [] ∧
      (garageOnDidReceiveSettings sg ⟨"G", 0⟩ 100 .fail).1.doorCache = sg.doorCache ∧
      (garageOnDidReceiveSettings sg ⟨"G", 0⟩ 100 .fail).1.optimisticUntil =
        sg.optimisticUntil)) :=
  hold_suppresses_appear_and_settings
    { lockInit with optimisticUntil := SMap.empty.set "L" 9000 }
    ⟨"L", 0, none, none⟩
    { garageInit with optimisticUntil := SMap.empty.set "G" 9000 }
    ⟨"G", 0⟩ 100 9000 9000 "ctx" .fail .fail
    (by decide) (by decide) rfl (by decide) rfl (by decide)

/-! C1: the 30-second optimistic hold after a successful KeyDown. -/

theorem lockPollOnce_held (s : LockState) (tgt : String) (h now : ℕ)
    (hh : s.optimisticUntil.get? tgt = some h) (hlt : now < h)
    (ctxs : List LockPollCtx) (hall : ∀ c ∈ ctxs, c.settings.target = tgt)
    (oracle : String → FetchOutcome) :
    lockPollOnce s ctxs now oracle = (s, []) := by
  induction ctxs with
  | nil => rfl
  | cons c rest ih =>
    have hc : c.settings.target = tgt := hall c (List.mem_cons_self c rest)
    have hrest := ih (fun x hx => hall x (List.mem_cons_of_mem c hx))
    rw [lockPollOnce]
    by_cases hset : c.hasSetState
    · by_cases htg : c.settings.target ≠ ""
      · rw [hc] at htg ⊢
        simp [hset, htg, lockUpdateState_held s tgt c.settings now h (oracle tgt) hh hlt,
          hrest]
      · simp [hset, htg, hrest]
    · simp [hset, hrest]

theorem garagePollOnce_held (s : GarageState) (tgt : String) (h now : ℕ)
    (hh : s.optimisticUntil.get? tgt = some h) (hlt : now < h)
    (ctxs : List GaragePollCtx) (hall : ∀ c ∈ ctxs, c.settings.target = tgt)
    (oracle : String → FetchOutcome) :
    garagePollOnce s ctxs now oracle = (s, []) := by
  induction ctxs with
  | nil => rfl
  | cons c rest ih =>
    have hc : c.settings.target = tgt := hall c (List.mem_cons_self c rest)
    have hrest := ih (fun x hx => hall x (List.mem_cons_of_mem c hx))
    rw [garagePollOnce]
    by_cases hset : c.hasSetState
    · by_cases htg : c.settings.target ≠ ""
      · rw [hc] at htg ⊢
        simp [hset, htg, garageUpdateState_held s tgt now h (oracle tgt) hh hlt, hrest]
      · simp [hset, htg, hrest]
    · simp [hset, hrest]

/-- C1: for the lock and garage-door controllers, a successful KeyDown at
time `t` records a hold expiring at `t + 30000`; a poll tick strictly before
that instant performs no fetch and leaves the controller state and display
untouched, whatever the server would report; a poll tick at or after it
removes the hold entry and performs the fetch. -/
theorem lock_garage_hold_invariant
    (sl : LockState) (ls : LockSettings) (sg : GarageState) (gds : GarageDoorSettings)
    (t : ℕ) (rL rG : ActionResponse)
    (htgtL : ls.target ≠ "") (htgtG : gds.target ≠ "")
    (hresL : rL.status ≠ "error") (hresG : rG.status ≠ "error")
    (hpollL : sl.pollTimer = true) (hpollG : sg.pollTimer = true) :
    (lockOnKeyDown sl ls t (.ok rL)).1.optimisticUntil.get? ls.target =
      some (t + 30000) ∧
    (garageOnKeyDown sg gds t (.ok rG)).1.optimisticUntil.get? gds.target =
      some (t + 30000) ∧
    (∀ tp ctxs oracle, tp < t + 30000 → (∀ c ∈ ctxs, c.settings.target = ls.target) →
      lockTimerTick (lockOnKeyDown sl ls t (.ok rL)).1 ctxs tp oracle =
        ((lockOnKeyDown sl ls t (.ok rL)).1, [])) ∧
    (∀ tp ctxs oracle, tp < t + 30000 → (∀ c ∈ ctxs, c.settings.target = gds.target) →
      garageTimerTick (garageOnKeyDown sg gds t (.ok rG)).1 ctxs tp oracle =
        ((garageOnKeyDown sg gds t (.ok rG)).1, [])) ∧
    (∀ tp oracle, t + 30000 ≤ tp →
      (lockTimerTick (lockOnKeyDown sl ls t (.ok rL)).1 [⟨true, ls⟩] tp
          oracle).1.optimisticUntil.get? ls.target = none ∧
      Effect.fetchInfo ls.target ∈
        (lockTimerTick (lockOnKeyDown sl ls t (.ok rL)).1 [⟨true, ls⟩] tp oracle).2) ∧
    (∀ tp oracle, t + 30000 ≤ tp →
      (garageTimerTick (garageOnKeyDown sg gds t (.ok rG)).1 [⟨true, gds⟩] tp
          oracle).1.optimisticUntil.get? gds.target = none ∧
      Effect.fetchInfo gds.target ∈
        (garageTimerTick (garageOnKeyDown sg gds t (.ok rG)).1 [⟨true, gds⟩] tp
          oracle).2) := by
  have hs1 : (lockOnKeyDown sl ls t (.ok rL)).1 =
      { sl with
        lockCache := sl.lockCache.set ls.target
          ⟨!(((sl.lockCache.get? ls.target).map LockCache.isLocked).getD true),
           (sl.lockCache.get? ls.target).bind LockCache.icon⟩,
        optimisticUntil := sl.optimisticUntil.set ls.target (t + 30000) } := by
    simp only [lockOnKeyDown, if_neg htgtL, if_neg hresL]
  have hg1 : (garageOnKeyDown sg gds t (.ok rG)).1 =
      { sg with
        doorCache := sg.doorCache.set gds.target
          ⟨if ((sg.doorCache.get? gds.target).map GarageDoorCache.doorState).getD
              "closed" = "closed" ∨
            ((sg.doorCache.get? gds.target).map GarageDoorCache.doorState).getD
              "closed" = "closing" then "open" else "closed",
           (sg.doorCache.get? gds.target).bind GarageDoorCache.icon⟩,
        optimisticUntil := sg.optimisticUntil.set gds.target (t + 30000) } := by
    simp only [garageOnKeyDown, if_neg htgtG, if_neg hresG]
  have hholdL : (lockOnKeyDown sl ls t (.ok rL)).1.optimisticUntil.get? ls.target =
      some (t + 30000) := by
    rw [hs1]
    exact SMap.get?_set_self _ _ _
  have hholdG : (garageOnKeyDown sg gds t (.ok rG)).1.optimisticUntil.get? gds.target =
      some (t + 30000) := by
    rw [hg1]
    exact SMap.get?_set_self _ _ _
  have hpL : (lockOnKeyDown sl ls t (.ok rL)).1.pollTimer = true := by
    rw [hs1]
    exact hpollL
  have hpG : (garageOnKeyDown sg gds t (.ok rG)).1.pollTimer = true := by
    rw [hg1]
    exact hpollG
  refine ⟨hholdL, hholdG, fun tp ctxs oracle hlt hall => ?_,
    fun tp ctxs oracle hlt hall => ?_, fun tp oracle hge => ?_, fun tp oracle hge => ?_⟩
  · rw [lockTimerTick, if_pos hpL]
    exact lockPollOnce_held _ ls.target (t + 30000) tp hholdL hlt ctxs hall oracle
  · rw [garageTimerTick, if_pos hpG]
    exact garagePollOnce_held _ gds.target (t + 30000) tp hholdG hlt ctxs hall oracle
  · rw [lockTimerTick, if_pos hpL, lockPollOnce]
    simp only [Bool.not_true, if_false, if_pos htgtL, lockPollOnce, List.append_nil]
    exact lockUpdateState_expired _ ls.target ls tp (t + 30000) (oracle ls.target)
      hholdL hge
  · rw [garageTimerTick, if_pos hpG, garagePollOnce]
    simp only [Bool.not_true, if_false, if_pos htgtG, garagePollOnce, List.append_nil]
    exact garageUpdateState_expired _ gds.target tp (t + 30000) (oracle gds.target)
      hholdG hge

/-- Witness for C1: a lock and a garage door pressed at t = 1000, polled at
t = 5000 (held) and t = 31000 (expired), against a server reporting the
opposite state. -/
theorem lock_garage_hold_invariant_witness :
    (lockOnKeyDown { lockInit with pollTimer := true } ⟨"L", 0, none, none⟩ 1000
        (.ok ⟨"success", none⟩)).1.optimisticUntil.get? "L" = some 31000 ∧
    (garageOnKeyDown { garageInit with pollTimer := true } ⟨"G", 0⟩ 1000
        (.ok ⟨"success", none⟩)).1.optimisticUntil.get? "G" = some 31000 ∧
    lockTimerTick (lockOnKeyDown { lockInit with pollTimer := true }
        ⟨"L", 0, none, none⟩ 1000 (.ok ⟨"success", none⟩)).1
        [⟨true, ⟨"L", 0, none, none⟩⟩] 5000
        (fun _ => .single ⟨"lock", none, some { DeviceState.blank with locked := some true }⟩) =
      ((lockOnKeyDown { lockInit with pollTimer := true } ⟨"L", 0, none, none⟩ 1000
        (.ok ⟨"success", none⟩)).1, []) ∧
    garageTimerTick (garageOnKeyDown { garageInit with pollTimer := true } ⟨"G", 0⟩ 1000
        (.ok ⟨"success", none⟩)).1 [⟨true, ⟨"G", 0⟩⟩] 5000
        (fun _ => .single ⟨"garage-door", none,
          some { DeviceState.blank with doorState := some "closed" }⟩) =
      ((garageOnKeyDown { garageInit with pollTimer := true } ⟨"G", 0⟩ 1000
        (.ok ⟨"success", none⟩)).1, []) ∧
    ((lockTimerTick (lockOnKeyDown { lockInit with pollTimer := true }
        ⟨"L", 0, none, none⟩ 1000 (.ok ⟨"success", none⟩)).1
        [⟨true, ⟨"L", 0, none, none⟩⟩] 31000
        (fun _ => .fail)).1.optimisticUntil.get? "L" = none ∧
      Effect.fetchInfo "L" ∈
        (lockTimerTick (lockOnKeyDown { lockInit with pollTimer := true }
          ⟨"L", 0, none, none⟩ 1000 (.ok ⟨"success", none⟩)).1
          [⟨true, ⟨"L", 0, none, none⟩⟩] 31000 (fun _ => .fail)).2) ∧
    ((garageTimerTick (garageOnKeyDown { garageInit with pollTimer := true } ⟨"G", 0⟩
        1000 (.ok ⟨"success", none⟩)).1 [⟨true, ⟨"G", 0⟩⟩] 31000
        (fun _ => .fail)).1.optimisticUntil.get? "G" = none ∧
      Effect.fetchInfo "G" ∈
        (garageTimerTick (garageOnKeyDown { garageInit with pollTimer := true } ⟨"G", 0⟩
          1000 (.ok ⟨"success", none⟩)).1 [⟨true, ⟨"G", 0⟩⟩] 31000
          (fun _ => .fail)).2) := by
  have T := lock_garage_hold_invariant { lockInit with pollTimer := true }
    ⟨"L", 0, none, none⟩ { garageInit with pollTimer := true } ⟨"G", 0⟩ 1000
    ⟨"success", none⟩ ⟨"success", none⟩ (by decide) (by decide) (by decide) (by decide)
    rfl rfl
  refine ⟨T.1, T.2.1,
    T.2.2.1 5000 [⟨true, ⟨"L", 0, none, none⟩⟩]
      (fun _ => .single ⟨"lock", none, some { DeviceState.blank with locked := some true }⟩)
      (by decide) ?_,
    T.2.2.2.1 5000 [⟨true, ⟨"G", 0⟩⟩]
      (fun _ => .single ⟨"garage-door", none,
        some { DeviceState.blank with doorState := some "closed" }⟩)
      (by decide) ?_,
    T.2.2.2.2.1 31000 (fun _ => .fail) (by decide),
    T.2.2.2.2.2 31000 (fun _ => .fail) (by decide)⟩
  · intro c hc
    simp only [List.mem_singleton] at hc
    rw [hc]
  · intro c hc
    simp only [List.mem_singleton] at hc
    rw [hc]

/-! C2: poll-timer lifecycle of the toggle controller. -/

/-- One WillAppear event: instance id, its settings, and the fetch outcome. -/
structure ToggleAppearEv where
  id : String
  settings : ToggleSettings
  resp : FetchOutcome

/-- Fold a sequence of WillAppear events over the controller state. -/
def toggleAppearFold (s : ToggleState) (evs : List ToggleAppearEv) : ToggleState :=
  evs.foldl (fun st e => (toggleOnWillAppear st e.id e.settings e.resp).1) s

/-- Fold a sequence of WillDisappear events over the controller state. -/
def toggleDisappearFold (s : ToggleState) (ids : List String) : ToggleState :=
  ids.foldl toggleOnWillDisappear s

theorem toggleUpdateState_pollTimer (s : ToggleState) (t : String) (st : Option String)
    (r : FetchOutcome) : (toggleUpdateState s t st r).1.pollTimer = s.pollTimer := by
  cases hf : r.firstDevice <;> simp [toggleUpdateState, hf]

theorem toggleUpdateState_liveTimers (s : ToggleState) (t : String) (st : Option String)
    (r : FetchOutcome) : (toggleUpdateState s t st r).1.liveTimers = s.liveTimers := by
  cases hf : r.firstDevice <;> simp [toggleUpdateState, hf]

theorem toggleUpdateState_contexts (s : ToggleState) (t : String) (st : Option String)
    (r : FetchOutcome) :
    (toggleUpdateState s t st r).1.activeContexts = s.activeContexts := by
  cases hf : r.firstDevice <;> simp [toggleUpdateState, hf]

theorem toggleStartPolling_pollTimer (s : ToggleState) :
    (toggleStartPolling s).pollTimer = true := by
  unfold toggleStartPolling
  split <;> simp_all

theorem toggleStartPolling_contexts (s : ToggleState) :
    (toggleStartPolling s).activeContexts = s.activeContexts := by
  unfold toggleStartPolling
  split <;> rfl

theorem toggleStartPolling_one (s : ToggleState)
    (hinv : s.liveTimers = if s.pollTimer then 1 else 0) :
    (toggleStartPolling s).liveTimers = 1 := by
  unfold toggleStartPolling
  split <;> rename_i hp <;> simp_all

theorem toggleOnWillAppear_pollTimer (s : ToggleState) (id : String)
    (st : ToggleSettings) (r : FetchOutcome) :
    (toggleOnWillAppear s id st r).1.pollTimer = true := by
  simp only [toggleOnWillAppear]
  exact toggleStartPolling_pollTimer _

theorem toggleOnWillAppear_inv (s : ToggleState) (id : String) (st : ToggleSettings)
    (r : FetchOutcome) (hinv : s.liveTimers = if s.pollTimer then 1 else 0) :
    (toggleOnWillAppear s id st r).1.liveTimers = 1 := by
  simp only [toggleOnWillAppear]
  apply toggleStartPolling_one
  by_cases htg : st.target ≠ ""
  · rw [if_pos htg, toggleUpdateState_liveTimers, toggleUpdateState_pollTimer]
    split <;> exact hinv
  · rw [if_neg htg]
    split <;> exact hinv

theorem toggleOnWillAppear_contexts (s : ToggleState) (id : String)
    (st : ToggleSettings) (r : FetchOutcome) :
    (toggleOnWillAppear s id st r).1.activeContexts = setAdd s.activeContexts id := by
  simp only [toggleOnWillAppear]
  rw [toggleStartPolling_contexts]
  by_cases htg : st.target ≠ ""
  · rw [if_pos htg, toggleUpdateState_contexts]
    split <;> rfl
  · rw [if_neg htg]
    split <;> rfl

theorem mem_setAdd (l : List String) (id x : String) :
    x ∈ setAdd l id ↔ x ∈ l ∨ x = id := by
  unfold setAdd
  split
  · rename_i h
    constructor
    · exact fun hx => Or.inl hx
    · rintro (hx | rfl)
      · exact hx
      · exact h
  · simp [List.mem_append]

theorem setAdd_ne_nil (l : List String) (id : String) : setAdd l id ≠ [] := by
  unfold setAdd
  split
  · rename_i h
    exact List.ne_nil_of_mem h
  · simp

theorem toggleOnWillDisappear_contexts (s : ToggleState) (id : String) :
    (toggleOnWillDisappear s id).activeContexts = setDelete s.activeContexts id := by
  simp only [toggleOnWillDisappear, toggleStopPolling]
  split
  · split <;> rfl
  · rfl

theorem toggleOnWillDisappear_inv (s : ToggleState) (id : String)
    (hinv : s.liveTimers = if s.pollTimer then 1 else 0) :
    (toggleOnWillDisappear s id).liveTimers =
      if (toggleOnWillDisappear s id).pollTimer then 1 else 0 := by
  simp only [toggleOnWillDisappear, toggleStopPolling]
  split
  · split <;> rename_i hp <;> simp_all
  · exact hinv

theorem toggleOnWillDisappear_guard (s : ToggleState) (id : String) :
    (toggleOnWillDisappear s id).pollTimer = true →
      (toggleOnWillDisappear s id).activeContexts ≠ [] := by
  simp only [toggleOnWillDisappear, toggleStopPolling]
  split
  · split <;> rename_i hp <;> simp_all
  · rename_i hd
    intro _
    exact hd

theorem toggleAppearFold_pollTimer (evs : List ToggleAppearEv) (hne : evs ≠ []) :
    ∀ s, (toggleAppearFold s evs).pollTimer = true := by
  induction evs with
  | nil => exact absurd rfl hne
  | cons e rest ih =>
    intro s
    rw [toggleAppearFold, List.foldl_cons]
    cases rest with
    | nil => exact toggleOnWillAppear_pollTimer _ _ _ _
    | cons e2 r2 => exact ih (by simp) _

theorem toggleAppearFold_inv (evs : List ToggleAppearEv) :
    ∀ s, s.liveTimers = (if s.pollTimer then 1 else 0) →
      (toggleAppearFold s evs).liveTimers =
        if (toggleAppearFold s evs).pollTimer then 1 else 0 := by
  induction evs with
  | nil => exact fun s h => h
  | cons e rest ih =>
    intro s hinv
    rw [toggleAppearFold, List.foldl_cons]
    apply ih
    rw [toggleOnWillAppear_inv _ _ _ _ hinv, toggleOnWillAppear_pollTimer]
    rfl

theorem toggleAppearFold_contexts_sub (evs : List ToggleAppearEv) :
    ∀ s, ∀ x ∈ (toggleAppearFold s evs).activeContexts,
      x ∈ s.activeContexts ∨ x ∈ evs.map ToggleAppearEv.id := by
  induction evs with
  | nil => exact fun s x hx => Or.inl hx
  | cons e rest ih =>
    intro s x hx
    rw [toggleAppearFold, List.foldl_cons] at hx
    rcases ih _ x hx with hin | hin
    · rw [toggleOnWillAppear_contexts] at hin
      rcases (mem_setAdd _ _ _).mp hin with h | h
      · exact Or.inl h
      · exact Or.inr (by simp [h])
    · exact Or.inr (by simp [hin])

theorem toggleAppearFold_contexts_ne (evs : List ToggleAppearEv) (hne : evs ≠ []) :
    ∀ s, (toggleAppearFold s evs).activeContexts ≠ [] := by
  induction evs with
  | nil => exact absurd rfl hne
  | cons e rest ih =>
    intro s
    rw [toggleAppearFold, List.foldl_cons]
    cases rest with
    | nil =>
      rw [show ([] : List ToggleAppearEv).foldl
        (fun st e => (toggleOnWillAppear st e.id e.settings e.resp).1)
        (toggleOnWillAppear s e.id e.settings e.resp).1 =
        (toggleOnWillAppear s e.id e.settings e.resp).1 from rfl,
        toggleOnWillAppear_contexts]
      exact setAdd_ne_nil _ _
    | cons e2 r2 => exact ih (by simp) _

theorem toggleDisappearFold_contexts (ids : List String) :
    ∀ s : ToggleState, (∀ x ∈ s.activeContexts, x ∈ ids) →
      (toggleDisappearFold s ids).activeContexts = [] := by
  induction ids with
  | nil =>
    intro s hs
    exact List.eq_nil_iff_forall_not_mem.mpr fun x hx => List.not_mem_nil x (hs x hx)
  | cons i rest ih =>
    intro s hs
    rw [toggleDisappearFold, List.foldl_cons]
    apply ih
    intro x hx
    rw [toggleOnWillDisappear_contexts] at hx
    simp only [setDelete, List.mem_filter, decide_eq_true_eq] at hx
    rcases hs x hx.1 with hmem
    rcases List.mem_cons.mp hmem with he | hr
    · exact absurd he hx.2
    · exact hr

theorem toggleDisappearFold_inv (ids : List String) :
    ∀ s : ToggleState, s.liveTimers = (if s.pollTimer then 1 else 0) →
      (toggleDisappearFold s ids).liveTimers =
        if (toggleDisappearFold s ids).pollTimer then 1 else 0 := by
  induction ids with
  | nil => exact fun s h => h
  | cons i rest ih =>
    intro s hinv
    rw [toggleDisappearFold, List.foldl_cons]
    exact ih _ (toggleOnWillDisappear_inv _ _ hinv)

theorem toggleDisappearFold_guard (ids : List String) :
    ∀ s : ToggleState, (s.pollTimer = true → s.activeContexts ≠ []) →
      ((toggleDisappearFold s ids).pollTimer = true →
        (toggleDisappearFold s ids).activeContexts ≠ []) := by
  induction ids with
  | nil => exact fun s h => h
  | cons i rest ih =>
    intro s _
    rw [toggleDisappearFold, List.foldl_cons]
    exact ih _ (toggleOnWillDisappear_guard _ _)

/-! Timer lifecycle of the lock controller. -/

/-- One lock WillAppear event: instance id, settings, clock, fetch outcome. -/
structure LockAppearEv where
  id : String
  settings : LockSettings
  now : ℕ
  resp : FetchOutcome

/-- Fold a sequence of WillAppear events over the lock controller state. -/
def lockAppearFold (s : LockState) (evs : List LockAppearEv) : LockState :=
  evs.foldl (fun st e => (lockOnWillAppear st e.id e.settings e.now e.resp).1) s

/-- Fold a sequence of WillDisappear events over the lock controller state. -/
def lockDisappearFold (s : LockState) (ids : List String) : LockState :=
  ids.foldl lockOnWillDisappear s

theorem lockFetchAndRender_pollTimer (s : LockState) (t : String) (ls : LockSettings)
    (r : FetchOutcome) : (lockFetchAndRender s t ls r).1.pollTimer = s.pollTimer := by
  cases hf : r.firstDevice <;> simp [lockFetchAndRender, hf]

theorem lockFetchAndRender_liveTimers (s : LockState) (t : String) (ls : LockSettings)
    (r : FetchOutcome) : (lockFetchAndRender s t ls r).1.liveTimers = s.liveTimers := by
  cases hf : r.firstDevice <;> simp [lockFetchAndRender, hf]

theorem lockFetchAndRender_contexts (s : LockState) (t : String) (ls : LockSettings)
    (r : FetchOutcome) :
    (lockFetchAndRender s t ls r).1.activeContexts = s.activeContexts := by
  cases hf : r.firstDevice <;> simp [lockFetchAndRender, hf]

theorem lockUpdateState_pollTimer (s : LockState) (t : String) (ls : LockSettings)
    (now : ℕ) (r : FetchOutcome) :
    (lockUpdateState s t ls now r).1.pollTimer = s.pollTimer := by
  rcases hg : s.optimisticUntil.get? t with _ | h <;> simp only [lockUpdateState, hg]
  · rw [lockFetchAndRender_pollTimer]
  · split
    · rfl
    · rw [lockFetchAndRender_pollTimer]

theorem lockUpdateState_liveTimers (s : LockState) (t : String) (ls : LockSettings)
    (now : ℕ) (r : FetchOutcome) :
    (lockUpdateState s t ls now r).1.liveTimers = s.liveTimers := by
  rcases hg : s.optimisticUntil.get? t with _ | h <;> simp only [lockUpdateState, hg]
  · rw [lockFetchAndRender_liveTimers]
  · split
    · rfl
    · rw [lockFetchAndRender_liveTimers]

theorem lockUpdateState_contexts (s : LockState) (t : String) (ls : LockSettings)
    (now : ℕ) (r : FetchOutcome) :
    (lockUpdateState s t ls now r).1.activeContexts = s.activeContexts := by
  rcases hg : s.optimisticUntil.get? t with _ | h <;> simp only [lockUpdateState, hg]
  · rw [lockFetchAndRender_contexts]
  · split
    · rfl
    · rw [lockFetchAndRender_contexts]

theorem lockStartPolling_pollTimer (s : LockState) :
    (lockStartPolling s).pollTimer = true := by
  unfold lockStartPolling
  split <;> simp_all

theorem lockStartPolling_contexts (s : LockState) :
    (lockStartPolling s).activeContexts = s.activeContexts := by
  unfold lockStartPolling
  split <;> rfl

theorem lockStartPolling_one (s : LockState)
    (hinv : s.liveTimers = if s.pollTimer then 1 else 0) :
    (lockStartPolling s).liveTimers = 1 := by
  unfold lockStartPolling
  split <;> rename_i hp <;> simp_all

theorem lockOnWillAppear_pollTimer (s : LockState) (id : String) (st : LockSettings)
    (now : ℕ) (r : FetchOutcome) :
    (lockOnWillAppear s id st now r).1.pollTimer = true := by
  simp only [lockOnWillAppear]
  exact lockStartPolling_pollTimer _

theorem lockOnWillAppear_inv (s : LockState) (id : String) (st : LockSettings)
    (now : ℕ) (r : FetchOutcome)
    (hinv : s.liveTimers = if s.pollTimer then 1 else 0) :
    (lockOnWillAppear s id st now r).1.liveTimers = 1 := by
  simp only [lockOnWillAppear]
  apply lockStartPolling_one
  by_cases htg : st.target ≠ ""
  · rw [if_pos htg, lockUpdateState_liveTimers, lockUpdateState_pollTimer]
    split <;> exact hinv
  · rw [if_neg htg]
    split <;> exact hinv

theorem lockOnWillAppear_contexts (s : LockState) (id : String) (st : LockSettings)
    (now : ℕ) (r : FetchOutcome) :
    (lockOnWillAppear s id st now r).1.activeContexts = setAdd s.activeContexts id := by
  simp only [lockOnWillAppear]
  rw [lockStartPolling_contexts]
  by_cases htg : st.target ≠ ""
  · rw [if_pos htg, lockUpdateState_contexts]
    split <;> rfl
  · rw [if_neg htg]
    split <;> rfl

theorem lockOnWillDisappear_contexts (s : LockState) (id : String) :
    (lockOnWillDisappear s id).activeContexts = setDelete s.activeContexts id := by
  simp only [lockOnWillDisappear, lockStopPolling]
  split
  · split <;> rfl
  · rfl

theorem lockOnWillDisappear_inv (s : LockState) (id : String)
    (hinv : s.liveTimers = if s.pollTimer then 1 else 0) :
    (lockOnWillDisappear s id).liveTimers =
      if (lockOnWillDisappear s id).pollTimer then 1 else 0 := by
  simp only [lockOnWillDisappear, lockStopPolling]
  split
  · split <;> rename_i hp <;> simp_all
  · exact hinv

theorem lockOnWillDisappear_guard (s : LockState) (id : String) :
    (lockOnWillDisappear s id).pollTimer = true →
      (lockOnWillDisappear s id).activeContexts ≠ [] := by
  simp only [lockOnWillDisappear, lockStopPolling]
  split
  · split <;> rename_i hp <;> simp_all
  · rename_i hd
    intro _
    exact hd

theorem lockAppearFold_pollTimer (evs : List LockAppearEv) (hne : evs ≠ []) :
    ∀ s, (lockAppearFold s evs).pollTimer = true := by
  induction evs with
  | nil => exact absurd rfl hne
  | cons e rest ih =>
    intro s
    rw [lockAppearFold, List.foldl_cons]
    cases rest with
    | nil => exact lockOnWillAppear_pollTimer _ _ _ _ _
    | cons e2 r2 => exact ih (by simp) _

theorem lockAppearFold_inv (evs : List LockAppearEv) :
    ∀ s, s.liveTimers = (if s.pollTimer then 1 else 0) →
      (lockAppearFold s evs).liveTimers =
        if (lockAppearFold s evs).pollTimer then 1 else 0 := by
  induction evs with
  | nil => exact fun s h => h
  | cons e rest ih =>
    intro s hinv
    rw [lockAppearFold, List.foldl_cons]
    apply ih
    rw [lockOnWillAppear_inv _ _ _ _ _ hinv, lockOnWillAppear_pollTimer]
    rfl

theorem lockAppearFold_contexts_sub (evs : List LockAppearEv) :
    ∀ s, ∀ x ∈ (lockAppearFold s evs).activeContexts,
      x ∈ s.activeContexts ∨ x ∈ evs.map LockAppearEv.id := by
  induction evs with
  | nil => exact fun s x hx => Or.inl hx
  | cons e rest ih =>
    intro s x hx
    rw [lockAppearFold, List.foldl_cons] at hx
    rcases ih _ x hx with hin | hin
    · rw [lockOnWillAppear_contexts] at hin
      rcases (mem_setAdd _ _ _).mp hin with h | h
      · exact Or.inl h
      · exact Or.inr (by simp [h])
    · exact Or.inr (by simp [hin])

theorem lockAppearFold_contexts_ne (evs : List LockAppearEv) (hne : evs ≠ []) :
    ∀ s, (lockAppearFold s evs).activeContexts ≠ [] := by
  induction evs with
  | nil => exact absurd rfl hne
  | cons e rest ih =>
    intro s
    rw [lockAppearFold, List.foldl_cons]
    cases rest with
    | nil =>
      rw [show ([] : List LockAppearEv).foldl
        (fun st e => (lockOnWillAppear st e.id e.settings e.now e.resp).1)
        (lockOnWillAppear s e.id e.settings e.now e.resp).1 =
        (lockOnWillAppear s e.id e.settings e.now e.resp).1 from rfl,
        lockOnWillAppear_contexts]
      exact setAdd_ne_nil _ _
    | cons e2 r2 => exact ih (by simp) _

theorem lockDisappearFold_contexts (ids : List String) :
    ∀ s : LockState, (∀ x ∈ s.activeContexts, x ∈ ids) →
      (lockDisappearFold s ids).activeContexts = [] := by
  induction ids with
  | nil =>
    intro s hs
    exact List.eq_nil_iff_forall_not_mem.mpr fun x hx => List.not_mem_nil x (hs x hx)
  | cons i rest ih =>
    intro s hs
    rw [lockDisappearFold, List.foldl_cons]
    apply ih
    intro x hx
    rw [lockOnWillDisappear_contexts] at hx
    simp only [setDelete, List.mem_filter, decide_eq_true_eq] at hx
    rcases hs x hx.1 with hmem
    rcases List.mem_cons.mp hmem with he | hr
    · exact absurd he hx.2
    · exact hr

theorem lockDisappearFold_inv (ids : List String) :
    ∀ s : LockState, s.liveTimers = (if s.pollTimer then 1 else 0) →
      (lockDisappearFold s ids).liveTimers =
        if (lockDisappearFold s ids).pollTimer then 1 else 0 := by
  induction ids with
  | nil => exact fun s h => h
  | cons i rest ih =>
    intro s hinv
    rw [lockDisappearFold, List.foldl_cons]
    exact ih _ (lockOnWillDisappear_inv _ _ hinv)

theorem lockDisappearFold_guard (ids : List String) :
    ∀ s : LockState, (s.pollTimer = true → s.activeContexts ≠ []) →
      ((lockDisappearFold s ids).pollTimer = true →
        (lockDisappearFold s ids).activeContexts ≠ []) := by
  induction ids with
  | nil => exact fun s h => h
  | cons i rest ih =>
    intro s _
    rw [lockDisappearFold, List.foldl_cons]
    exact ih _ (lockOnWillDisappear_guard _ _)

/-! Timer lifecycle of the garage-door controller. -/

/-- One garage-door WillAppear event: instance id, settings, clock, fetch outcome. -/
structure GarageAppearEv where
  id : String
  settings : GarageDoorSettings
  now : ℕ
  resp : FetchOutcome

/-- Fold a sequence of WillAppear events over the garage-door controller state. -/
def garageAppearFold (s : GarageState) (evs : List GarageAppearEv) : GarageState :=
  evs.foldl (fun st e => (garageOnWillAppear st e.id e.settings e.now e.resp).1) s

/-- Fold a sequence of WillDisappear events over the garage-door controller state. -/
def garageDisappearFold (s : GarageState) (ids : List String) : GarageState :=
  ids.foldl garageOnWillDisappear s

theorem garageFetchAndRender_pollTimer (s : GarageState) (t : String)
    (r : FetchOutcome) : (garageFetchAndRender s t r).1.pollTimer = s.pollTimer := by
  cases hf : r.firstDevice <;> simp [garageFetchAndRender, hf]

theorem garageFetchAndRender_liveTimers (s : GarageState) (t : String)
    (r : FetchOutcome) : (garageFetchAndRender s t r).1.liveTimers = s.liveTimers := by
  cases hf : r.firstDevice <;> simp [garageFetchAndRender, hf]

theorem garageFetchAndRender_contexts (s : GarageState) (t : String)
    (r : FetchOutcome) :
    (garageFetchAndRender s t r).1.activeContexts = s.activeContexts := by
  cases hf : r.firstDevice <;> simp [garageFetchAndRender, hf]

theorem garageUpdateState_pollTimer (s : GarageState) (t : String)
    (now : ℕ) (r : FetchOutcome) :
    (garageUpdateState s t now r).1.pollTimer = s.pollTimer := by
  rcases hg : s.optimisticUntil.get? t with _ | h <;> simp only [garageUpdateState, hg]
  · rw [garageFetchAndRender_pollTimer]
  · split
    · rfl
    · rw [garageFetchAndRender_pollTimer]

theorem garageUpdateState_liveTimers (s : GarageState) (t : String)
    (now : ℕ) (r : FetchOutcome) :
    (garageUpdateState s t now r).1.liveTimers = s.liveTimers := by
  rcases hg : s.optimisticUntil.get? t with _ | h <;> simp only [garageUpdateState, hg]
  · rw [garageFetchAndRender_liveTimers]
  · split
    · rfl
    · rw [garageFetchAndRender_liveTimers]

theorem garageUpdateState_contexts (s : GarageState) (t : String)
    (now : ℕ) (r : FetchOutcome) :
    (garageUpdateState s t now r).1.activeContexts = s.activeContexts := by
  rcases hg : s.optimisticUntil.get? t with _ | h <;> simp only [garageUpdateState, hg]
  · rw [garageFetchAndRender_contexts]
  · split
    · rfl
    · rw [garageFetchAndRender_contexts]

theorem garageStartPolling_pollTimer (s : GarageState) :
    (garageStartPolling s).pollTimer = true := by
  unfold garageStartPolling
  split <;> simp_all

theorem garageStartPolling_contexts (s : GarageState) :
    (garageStartPolling s).activeContexts = s.activeContexts := by
  unfold garageStartPolling
  split <;> rfl

theorem garageStartPolling_one (s : GarageState)
    (hinv : s.liveTimers = if s.pollTimer then 1 else 0) :
    (garageStartPolling s).liveTimers = 1 := by
  unfold garageStartPolling
  split <;> rename_i hp <;> simp_all

theorem garageOnWillAppear_pollTimer (s : GarageState) (id : String) (st : GarageDoorSettings)
    (now : ℕ) (r : FetchOutcome) :
    (garageOnWillAppear s id st now r).1.pollTimer = true := by
  simp only [garageOnWillAppear]
  exact garageStartPolling_pollTimer _

theorem garageOnWillAppear_inv (s : GarageState) (id : String) (st : GarageDoorSettings)
    (now : ℕ) (r : FetchOutcome)
    (hinv : s.liveTimers = if s.pollTimer then 1 else 0) :
    (garageOnWillAppear s id st now r).1.liveTimers = 1 := by
  simp only [garageOnWillAppear]
  apply garageStartPolling_one
  by_cases htg : st.target ≠ ""
  · rw [if_pos htg, garageUpdateState_liveTimers, garageUpdateState_pollTimer]
    split <;> exact hinv
  · rw [if_neg htg]
    split <;> exact hinv

theorem garageOnWillAppear_contexts (s : GarageState) (id : String) (st : GarageDoorSettings)
    (now : ℕ) (r : FetchOutcome) :
    (garageOnWillAppear s id st now r).1.activeContexts = setAdd s.activeContexts id := by
  simp only [garageOnWillAppear]
  rw [garageStartPolling_contexts]
  by_cases htg : st.target ≠ ""
  · rw [if_pos htg, garageUpdateState_contexts]
    split <;> rfl
  · rw [if_neg htg]
    split <;> rfl

theorem garageOnWillDisappear_contexts (s : GarageState) (id : String) :
    (garageOnWillDisappear s id).activeContexts = setDelete s.activeContexts id := by
  simp only [garageOnWillDisappear, garageStopPolling]
  split
  · split <;> rfl
  · rfl

theorem garageOnWillDisappear_inv (s : GarageState) (id : String)
    (hinv : s.liveTimers = if s.pollTimer then 1 else 0) :
    (garageOnWillDisappear s id).liveTimers =
      if (garageOnWillDisappear s id).pollTimer then 1 else 0 := by
  simp only [garageOnWillDisappear, garageStopPolling]
  split
  · split <;> rename_i hp <;> simp_all
  · exact hinv

theorem garageOnWillDisappear_guard (s : GarageState) (id : String) :
    (garageOnWillDisappear s id).pollTimer = true →
      (garageOnWillDisappear s id).activeContexts ≠ [] := by
  simp only [garageOnWillDisappear, garageStopPolling]
  split
  · split <;> rename_i hp <;> simp_all
  · rename_i hd
    intro _
    exact hd

theorem garageAppearFold_pollTimer (evs : List GarageAppearEv) (hne : evs ≠ []) :
    ∀ s, (garageAppearFold s evs).pollTimer = true := by
  induction evs with
  | nil => exact absurd rfl hne
  | cons e rest ih =>
    intro s
    rw [garageAppearFold, List.foldl_cons]
    cases rest with
    | nil => exact garageOnWillAppear_pollTimer _ _ _ _ _
    | cons e2 r2 => exact ih (by simp) _

theorem garageAppearFold_inv (evs : List GarageAppearEv) :
    ∀ s, s.liveTimers = (if s.pollTimer then 1 else 0) →
      (garageAppearFold s evs).liveTimers =
        if (garageAppearFold s evs).pollTimer then 1 else 0 := by
  induction evs with
  | nil => exact fun s h => h
  | cons e rest ih =>
    intro s hinv
    rw [garageAppearFold, List.foldl_cons]
    apply ih
    rw [garageOnWillAppear_inv _ _ _ _ _ hinv, garageOnWillAppear_pollTimer]
    rfl

theorem garageAppearFold_contexts_sub (evs : List GarageAppearEv) :
    ∀ s, ∀ x ∈ (garageAppearFold s evs).activeContexts,
      x ∈ s.activeContexts ∨ x ∈ evs.map GarageAppearEv.id := by
  induction evs with
  | nil => exact fun s x hx => Or.inl hx
  | cons e rest ih =>
    intro s x hx
    rw [garageAppearFold, List.foldl_cons] at hx
    rcases ih _ x hx with hin | hin
    · rw [garageOnWillAppear_contexts] at hin
      rcases (mem_setAdd _ _ _).mp hin with h | h
      · exact Or.inl h
      · exact Or.inr (by simp [h])
    · exact Or.inr (by simp [hin])

theorem garageAppearFold_contexts_ne (evs : List GarageAppearEv) (hne : evs ≠ []) :
    ∀ s, (garageAppearFold s evs).activeContexts ≠ [] := by
  induction evs with
  | nil => exact absurd rfl hne
  | cons e rest ih =>
    intro s
    rw [garageAppearFold, List.foldl_cons]
    cases rest with
    | nil =>
      rw [show ([] : List GarageAppearEv).foldl
        (fun st e => (garageOnWillAppear st e.id e.settings e.now e.resp).1)
        (garageOnWillAppear s e.id e.settings e.now e.resp).1 =
        (garageOnWillAppear s e.id e.settings e.now e.resp).1 from rfl,
        garageOnWillAppear_contexts]
      exact setAdd_ne_nil _ _
    | cons e2 r2 => exact ih (by simp) _

theorem garageDisappearFold_contexts (ids : List String) :
    ∀ s : GarageState, (∀ x ∈ s.activeContexts, x ∈ ids) →
      (garageDisappearFold s ids).activeContexts = [] := by
  induction ids with
  | nil =>
    intro s hs
    exact List.eq_nil_iff_forall_not_mem.mpr fun x hx => List.not_mem_nil x (hs x hx)
  | cons i rest ih =>
    intro s hs
    rw [garageDisappearFold, List.foldl_cons]
    apply ih
    intro x hx
    rw [garageOnWillDisappear_contexts] at hx
    simp only [setDelete, List.mem_filter, decide_eq_true_eq] at hx
    rcases hs x hx.1 with hmem
    rcases List.mem_cons.mp hmem with he | hr
    · exact absurd he hx.2
    · exact hr

theorem garageDisappearFold_inv (ids : List String) :
    ∀ s : GarageState, s.liveTimers = (if s.pollTimer then 1 else 0) →
      (garageDisappearFold s ids).liveTimers =
        if (garageDisappearFold s ids).pollTimer then 1 else 0 := by
  induction ids with
  | nil => exact fun s h => h
  | cons i rest ih =>
    intro s hinv
    rw [garageDisappearFold, List.foldl_cons]
    exact ih _ (garageOnWillDisappear_inv _ _ hinv)

theorem garageDisappearFold_guard (ids : List String) :
    ∀ s : GarageState, (s.pollTimer = true → s.activeContexts ≠ []) →
      ((garageDisappearFold s ids).pollTimer = true →
        (garageDisappearFold s ids).activeContexts ≠ []) := by
  induction ids with
  | nil => exact fun s h => h
  | cons i rest ih =>
    intro s _
    rw [garageDisappearFold, List.foldl_cons]
    exact ih _ (garageOnWillDisappear_guard _ _)

/-- From a fresh toggle controller, any non-empty sequence of WillAppear
events leaves exactly one live poll timer (repeats never create a second);
after the matching WillDisappear events the active-context set is empty,
the timer is cancelled and null, and a timer tick at any later time does
nothing. -/
theorem toggle_timer_lifecycle (evs : List ToggleAppearEv) (hne : evs ≠ []) :
    (toggleAppearFold toggleInit evs).pollTimer = true ∧
    (toggleAppearFold toggleInit evs).liveTimers = 1 ∧
    (toggleDisappearFold (toggleAppearFold toggleInit evs)
      (evs.map ToggleAppearEv.id)).activeContexts = [] ∧
    (toggleDisappearFold (toggleAppearFold toggleInit evs)
      (evs.map ToggleAppearEv.id)).pollTimer = false ∧
    (toggleDisappearFold (toggleAppearFold toggleInit evs)
      (evs.map ToggleAppearEv.id)).liveTimers = 0 ∧
    (∀ ctxs oracle,
      toggleTimerTick (toggleDisappearFold (toggleAppearFold toggleInit evs)
        (evs.map ToggleAppearEv.id)) ctxs oracle =
      (toggleDisappearFold (toggleAppearFold toggleInit evs)
        (evs.map ToggleAppearEv.id), [])) := by
  have h1 := toggleAppearFold_pollTimer evs hne toggleInit
  have hinv1 := toggleAppearFold_inv evs toggleInit rfl
  have h2 : (toggleAppearFold toggleInit evs).liveTimers = 1 := by
    rw [hinv1, if_pos h1]
  have h3 : (toggleDisappearFold (toggleAppearFold toggleInit evs)
      (evs.map ToggleAppearEv.id)).activeContexts = [] := by
    apply toggleDisappearFold_contexts
    intro x hx
    rcases toggleAppearFold_contexts_sub evs toggleInit x hx with h | h
    · exact absurd h (List.not_mem_nil x)
    · exact h
  have hguard := toggleDisappearFold_guard (evs.map ToggleAppearEv.id)
    (toggleAppearFold toggleInit evs)
    (fun _ => toggleAppearFold_contexts_ne evs hne toggleInit)
  have h4 : (toggleDisappearFold (toggleAppearFold toggleInit evs)
      (evs.map ToggleAppearEv.id)).pollTimer = false := by
    cases hp : (toggleDisappearFold (toggleAppearFold toggleInit evs)
        (evs.map ToggleAppearEv.id)).pollTimer
    · rfl
    · exact absurd h3 (hguard hp)
  have hinv2 := toggleDisappearFold_inv (evs.map ToggleAppearEv.id)
    (toggleAppearFold toggleInit evs) hinv1
  have h5 : (toggleDisappearFold (toggleAppearFold toggleInit evs)
      (evs.map ToggleAppearEv.id)).liveTimers = 0 := by
    rw [hinv2, h4]
    rfl
  exact ⟨h1, h2, h3, h4, h5, fun ctxs oracle => by
    rw [toggleTimerTick, h4]
    rfl⟩

/-- The toggle lifecycle at two appear events with distinct ids. -/
theorem toggle_timer_lifecycle_witness :
    (toggleAppearFold toggleInit
      [⟨"a", ⟨"", 0, none⟩, .fail⟩, ⟨"b", ⟨"", 0, none⟩, .fail⟩]).pollTimer = true ∧
    (toggleAppearFold toggleInit
      [⟨"a", ⟨"", 0, none⟩, .fail⟩, ⟨"b", ⟨"", 0, none⟩, .fail⟩]).liveTimers = 1 ∧
    (toggleDisappearFold (toggleAppearFold toggleInit
      [⟨"a", ⟨"", 0, none⟩, .fail⟩, ⟨"b", ⟨"", 0, none⟩, .fail⟩])
      (List.map ToggleAppearEv.id
        [⟨"a", ⟨"", 0, none⟩, .fail⟩,
         ⟨"b", ⟨"", 0, none⟩, .fail⟩])).activeContexts = [] ∧
    (toggleDisappearFold (toggleAppearFold toggleInit
      [⟨"a", ⟨"", 0, none⟩, .fail⟩, ⟨"b", ⟨"", 0, none⟩, .fail⟩])
      (List.map ToggleAppearEv.id
        [⟨"a", ⟨"", 0, none⟩, .fail⟩, ⟨"b", ⟨"", 0, none⟩, .fail⟩])).pollTimer = false ∧
    (toggleDisappearFold (toggleAppearFold toggleInit
      [⟨"a", ⟨"", 0, none⟩, .fail⟩, ⟨"b", ⟨"", 0, none⟩, .fail⟩])
      (List.map ToggleAppearEv.id
        [⟨"a", ⟨"", 0, none⟩, .fail⟩, ⟨"b", ⟨"", 0, none⟩, .fail⟩])).liveTimers = 0 ∧
    (∀ ctxs oracle,
      toggleTimerTick (toggleDisappearFold (toggleAppearFold toggleInit
        [⟨"a", ⟨"", 0, none⟩, .fail⟩, ⟨"b", ⟨"", 0, none⟩, .fail⟩])
        (List.map ToggleAppearEv.id
          [⟨"a", ⟨"", 0, none⟩, .fail⟩, ⟨"b", ⟨"", 0, none⟩, .fail⟩])) ctxs oracle =
      (toggleDisappearFold (toggleAppearFold toggleInit
        [⟨"a", ⟨"", 0, none⟩, .fail⟩, ⟨"b", ⟨"", 0, none⟩, .fail⟩])
        (List.map ToggleAppearEv.id
          [⟨"a", ⟨"", 0, none⟩, .fail⟩, ⟨"b", ⟨"", 0, none⟩, .fail⟩]), [])) :=
  toggle_timer_lifecycle
    [⟨"a", ⟨"", 0, none⟩, .fail⟩, ⟨"b", ⟨"", 0, none⟩, .fail⟩] (by simp)

/-- C2: for every embedded polling controller — toggle, lock, and
garage-door — any non-empty sequence of WillAppear events from a fresh
controller leaves exactly one live poll timer (repeated WillAppear never
creates a second); after the matching WillDisappear events the
active-context set is empty, the timer is cancelled and null, and a timer
tick at any later time performs no fetch and no effect at all. -/
theorem poll_timer_lifecycle
    (tevs : List ToggleAppearEv) (levs : List LockAppearEv)
    (gevs : List GarageAppearEv)
    (htne : tevs ≠ []) (hlne : levs ≠ []) (hgne : gevs ≠ []) :
    ((toggleAppearFold toggleInit tevs).pollTimer = true ∧
     (toggleAppearFold toggleInit tevs).liveTimers = 1 ∧
     (toggleDisappearFold (toggleAppearFold toggleInit tevs)
       (tevs.map ToggleAppearEv.id)).activeContexts = [] ∧
     (toggleDisappearFold (toggleAppearFold toggleInit tevs)
       (tevs.map ToggleAppearEv.id)).pollTimer = false ∧
     (toggleDisappearFold (toggleAppearFold toggleInit tevs)
       (tevs.map ToggleAppearEv.id)).liveTimers = 0 ∧
     (∀ ctxs oracle,
       toggleTimerTick (toggleDisappearFold (toggleAppearFold toggleInit tevs)
         (tevs.map ToggleAppearEv.id)) ctxs oracle =
       (toggleDisappearFold (toggleAppearFold toggleInit tevs)
         (tevs.map ToggleAppearEv.id), []))) ∧
    ((lockAppearFold lockInit levs).pollTimer = true ∧
     (lockAppearFold lockInit levs).liveTimers = 1 ∧
     (lockDisappearFold (lockAppearFold lockInit levs)
       (levs.map LockAppearEv.id)).activeContexts = [] ∧
     (lockDisappearFold (lockAppearFold lockInit levs)
       (levs.map LockAppearEv.id)).pollTimer = false ∧
     (lockDisappearFold (lockAppearFold lockInit levs)
       (levs.map LockAppearEv.id)).liveTimers = 0 ∧
     (∀ ctxs now oracle,
       lockTimerTick (lockDisappearFold (lockAppearFold lockInit levs)
         (levs.map LockAppearEv.id)) ctxs now oracle =
       (lockDisappearFold (lockAppearFold lockInit levs)
         (levs.map LockAppearEv.id), []))) ∧
    ((garageAppearFold garageInit gevs).pollTimer = true ∧
     (garageAppearFold garageInit gevs).liveTimers = 1 ∧
     (garageDisappearFold (garageAppearFold garageInit gevs)
       (gevs.map GarageAppearEv.id)).activeContexts = [] ∧
     (garageDisappearFold (garageAppearFold garageInit gevs)
       (gevs.map GarageAppearEv.id)).pollTimer = false ∧
     (garageDisappearFold (garageAppearFold garageInit gevs)
       (gevs.map GarageAppearEv.id)).liveTimers = 0 ∧
     (∀ ctxs now oracle,
       garageTimerTick (garageDisappearFold (garageAppearFold garageInit gevs)
         (gevs.map GarageAppearEv.id)) ctxs now oracle =
       (garageDisappearFold (garageAppearFold garageInit gevs)
         (gevs.map GarageAppearEv.id), []))) := by
  refine ⟨toggle_timer_lifecycle tevs htne, ?_, ?_⟩
  · have h1 := lockAppearFold_pollTimer levs hlne lockInit
    have hinv1 := lockAppearFold_inv levs lockInit rfl
    have h2 : (lockAppearFold lockInit levs).liveTimers = 1 := by
      rw [hinv1, if_pos h1]
    have h3 : (lockDisappearFold (lockAppearFold lockInit levs)
        (levs.map LockAppearEv.id)).activeContexts = [] := by
      apply lockDisappearFold_contexts
      intro x hx
      rcases lockAppearFold_contexts_sub levs lockInit x hx with h | h
      · exact absurd h (List.not_mem_nil x)
      · exact h
    have hguard := lockDisappearFold_guard (levs.map LockAppearEv.id)
      (lockAppearFold lockInit levs)
      (fun _ => lockAppearFold_contexts_ne levs hlne lockInit)
    have h4 : (lockDisappearFold (lockAppearFold lockInit levs)
        (levs.map LockAppearEv.id)).pollTimer = false := by
      cases hp : (lockDisappearFold (lockAppearFold lockInit levs)
          (levs.map LockAppearEv.id)).pollTimer
      · rfl
      · exact absurd h3 (hguard hp)
    have hinv2 := lockDisappearFold_inv (levs.map LockAppearEv.id)
      (lockAppearFold lockInit levs) hinv1
    have h5 : (lockDisappearFold (lockAppearFold lockInit levs)
        (levs.map LockAppearEv.id)).liveTimers = 0 := by
      rw [hinv2, h4]
      rfl
    exact ⟨h1, h2, h3, h4, h5, fun ctxs now oracle => by
      rw [lockTimerTick, h4]
      rfl⟩
  · have h1 := garageAppearFold_pollTimer gevs hgne garageInit
    have hinv1 := garageAppearFold_inv gevs garageInit rfl
    have h2 : (garageAppearFold garageInit gevs).liveTimers = 1 := by
      rw [hinv1, if_pos h1]
    have h3 : (garageDisappearFold (garageAppearFold garageInit gevs)
        (gevs.map GarageAppearEv.id)).activeContexts = [] := by
      apply garageDisappearFold_contexts
      intro x hx
      rcases garageAppearFold_contexts_sub gevs garageInit x hx with h | h
      · exact absurd h (List.not_mem_nil x)
      · exact h
    have hguard := garageDisappearFold_guard (gevs.map GarageAppearEv.id)
      (garageAppearFold garageInit gevs)
      (fun _ => garageAppearFold_contexts_ne gevs hgne garageInit)
    have h4 : (garageDisappearFold (garageAppearFold garageInit gevs)
        (gevs.map GarageAppearEv.id)).pollTimer = false := by
      cases hp : (garageDisappearFold (garageAppearFold garageInit gevs)
          (gevs.map GarageAppearEv.id)).pollTimer
      · rfl
      · exact absurd h3 (hguard hp)
    have hinv2 := garageDisappearFold_inv (gevs.map GarageAppearEv.id)
      (garageAppearFold garageInit gevs) hinv1
    have h5 : (garageDisappearFold (garageAppearFold garageInit gevs)
        (gevs.map GarageAppearEv.id)).liveTimers = 0 := by
      rw [hinv2, h4]
      rfl
    exact ⟨h1, h2, h3, h4, h5, fun ctxs now oracle => by
      rw [garageTimerTick, h4]
      rfl⟩

/-- Witness for C2 at two toggle appear events, two lock appear events and
two garage-door appear events with distinct ids. -/
theorem poll_timer_lifecycle_witness :
    ((toggleAppearFold toggleInit
        [⟨"a", ⟨"", 0, none⟩, .fail⟩, ⟨"b", ⟨"", 0, none⟩, .fail⟩]).pollTimer = true ∧
     (toggleAppearFold toggleInit
        [⟨"a", ⟨"", 0, none⟩, .fail⟩, ⟨"b", ⟨"", 0, none⟩, .fail⟩]).liveTimers = 1 ∧
     (toggleDisappearFold (toggleAppearFold toggleInit
        [⟨"a", ⟨"", 0, none⟩, .fail⟩, ⟨"b", ⟨"", 0, none⟩, .fail⟩])
       (List.map ToggleAppearEv.id
         [⟨"a", ⟨"", 0, none⟩, .fail⟩,
          ⟨"b", ⟨"", 0, none⟩, .fail⟩])).activeContexts = [] ∧
     (toggleDisappearFold (toggleAppearFold toggleInit
        [⟨"a", ⟨"", 0, none⟩, .fail⟩, ⟨"b", ⟨"", 0, none⟩, .fail⟩])
       (List.map ToggleAppearEv.id
         [⟨"a", ⟨"", 0, none⟩, .fail⟩,
          ⟨"b", ⟨"", 0, none⟩, .fail⟩])).pollTimer = false ∧
     (toggleDisappearFold (toggleAppearFold toggleInit
        [⟨"a", ⟨"", 0, none⟩, .fail⟩, ⟨"b", ⟨"", 0, none⟩, .fail⟩])
       (List.map ToggleAppearEv.id
         [⟨"a", ⟨"", 0, none⟩, .fail⟩,
          ⟨"b", ⟨"", 0, none⟩, .fail⟩])).liveTimers = 0 ∧
     (∀ ctxs oracle,
       toggleTimerTick (toggleDisappearFold (toggleAppearFold toggleInit
          [⟨"a", ⟨"", 0, none⟩, .fail⟩, ⟨"b", ⟨"", 0, none⟩, .fail⟩])
         (List.map ToggleAppearEv.id
           [⟨"a", ⟨"", 0, none⟩, .fail⟩,
            ⟨"b", ⟨"", 0, none⟩, .fail⟩])) ctxs oracle =
       (toggleDisappearFold (toggleAppearFold toggleInit
          [⟨"a", ⟨"", 0, none⟩, .fail⟩, ⟨"b", ⟨"", 0, none⟩, .fail⟩])
         (List.map ToggleAppearEv.id
           [⟨"a", ⟨"", 0, none⟩, .fail⟩, ⟨"b", ⟨"", 0, none⟩, .fail⟩]), []))) ∧
    ((lockAppearFold lockInit
        [⟨"a", ⟨"", 0, none, none⟩, 5, .fail⟩,
         ⟨"b", ⟨"", 0, none, none⟩, 5, .fail⟩]).pollTimer = true ∧
     (lockAppearFold lockInit
        [⟨"a", ⟨"", 0, none, none⟩, 5, .fail⟩,
         ⟨"b", ⟨"", 0, none, none⟩, 5, .fail⟩]).liveTimers = 1 ∧
     (lockDisappearFold (lockAppearFold lockInit
        [⟨"a", ⟨"", 0, none, none⟩, 5, .fail⟩,
         ⟨"b", ⟨"", 0, none, none⟩, 5, .fail⟩])
       (List.map LockAppearEv.id
         [⟨"a", ⟨"", 0, none, none⟩, 5, .fail⟩,
          ⟨"b", ⟨"", 0, none, none⟩, 5, .fail⟩])).activeContexts = [] ∧
     (lockDisappearFold (lockAppearFold lockInit
        [⟨"a", ⟨"", 0, none, none⟩, 5, .fail⟩,
         ⟨"b", ⟨"", 0, none, none⟩, 5, .fail⟩])
       (List.map LockAppearEv.id
         [⟨"a", ⟨"", 0, none, none⟩, 5, .fail⟩,
          ⟨"b", ⟨"", 0, none, none⟩, 5, .fail⟩])).pollTimer = false ∧
     (lockDisappearFold (lockAppearFold lockInit
        [⟨"a", ⟨"", 0, none, none⟩, 5, .fail⟩,
         ⟨"b", ⟨"", 0, none, none⟩, 5, .fail⟩])
       (List.map LockAppearEv.id
         [⟨"a", ⟨"", 0, none, none⟩, 5, .fail⟩,
          ⟨"b", ⟨"", 0, none, none⟩, 5, .fail⟩])).liveTimers = 0 ∧
     (∀ ctxs now oracle,
       lockTimerTick (lockDisappearFold (lockAppearFold lockInit
          [⟨"a", ⟨"", 0, none, none⟩, 5, .fail⟩,
           ⟨"b", ⟨"", 0, none, none⟩, 5, .fail⟩])
         (List.map LockAppearEv.id
           [⟨"a", ⟨"", 0, none, none⟩, 5, .fail⟩,
            ⟨"b", ⟨"", 0, none, none⟩, 5, .fail⟩])) ctxs now oracle =
       (lockDisappearFold (lockAppearFold lockInit
          [⟨"a", ⟨"", 0, none, none⟩, 5, .fail⟩,
           ⟨"b", ⟨"", 0, none, none⟩, 5, .fail⟩])
         (List.map LockAppearEv.id
           [⟨"a", ⟨"", 0, none, none⟩, 5, .fail⟩,
            ⟨"b", ⟨"", 0, none, none⟩, 5, .fail⟩]), []))) ∧
    ((garageAppearFold garageInit
        [⟨"a", ⟨"", 0⟩, 5, .fail⟩, ⟨"b", ⟨"", 0⟩, 5, .fail⟩]).pollTimer = true ∧
     (garageAppearFold garageInit
        [⟨"a", ⟨"", 0⟩, 5, .fail⟩, ⟨"b", ⟨"", 0⟩, 5, .fail⟩]).liveTimers = 1 ∧
     (garageDisappearFold (garageAppearFold garageInit
        [⟨"a", ⟨"", 0⟩, 5, .fail⟩, ⟨"b", ⟨"", 0⟩, 5, .fail⟩])
       (List.map GarageAppearEv.id
         [⟨"a", ⟨"", 0⟩, 5, .fail⟩, ⟨"b", ⟨"", 0⟩, 5, .fail⟩])).activeContexts = [] ∧
     (garageDisappearFold (garageAppearFold garageInit
        [⟨"a", ⟨"", 0⟩, 5, .fail⟩, ⟨"b", ⟨"", 0⟩, 5, .fail⟩])
       (List.map GarageAppearEv.id
         [⟨"a", ⟨"", 0⟩, 5, .fail⟩, ⟨"b", ⟨"", 0⟩, 5, .fail⟩])).pollTimer = false ∧
     (garageDisappearFold (garageAppearFold garageInit
        [⟨"a", ⟨"", 0⟩, 5, .fail⟩, ⟨"b", ⟨"", 0⟩, 5, .fail⟩])
       (List.map GarageAppearEv.id
         [⟨"a", ⟨"", 0⟩, 5, .fail⟩, ⟨"b", ⟨"", 0⟩, 5, .fail⟩])).liveTimers = 0 ∧
     (∀ ctxs now oracle,
       garageTimerTick (garageDisappearFold (garageAppearFold garageInit
          [⟨"a", ⟨"", 0⟩, 5, .fail⟩, ⟨"b", ⟨"", 0⟩, 5, .fail⟩])
         (List.map GarageAppearEv.id
           [⟨"a", ⟨"", 0⟩, 5, .fail⟩, ⟨"b", ⟨"", 0⟩, 5, .fail⟩])) ctxs now oracle =
       (garageDisappearFold (garageAppearFold garageInit
          [⟨"a", ⟨"", 0⟩, 5, .fail⟩, ⟨"b", ⟨"", 0⟩, 5, .fail⟩])
         (List.map GarageAppearEv.id
           [⟨"a", ⟨"", 0⟩, 5, .fail⟩, ⟨"b", ⟨"", 0⟩, 5, .fail⟩]), []))) :=
  poll_timer_lifecycle
    [⟨"a", ⟨"", 0, none⟩, .fail⟩, ⟨"b", ⟨"", 0, none⟩, .fail⟩]
    [⟨"a", ⟨"", 0, none, none⟩, 5, .fail⟩, ⟨"b", ⟨"", 0, none, none⟩, 5, .fail⟩]
    [⟨"a", ⟨"", 0⟩, 5, .fail⟩, ⟨"b", ⟨"", 0⟩, 5, .fail⟩]
    (by simp) (by simp) (by simp)

/-! C5: successful KeyDown with no cache entry. -/

/-- C5 counterexample: the lock controller, pressed successfully with an
empty cache, still pushes an optimistic image and integer state (it defaults
the prior state to locked and renders the flip), so "the optimistic visual
update is skipped" fails for it. -/
theorem lock_keydown_empty_cache_renders :
    lockInit.lockCache.get? "Front Door" = none ∧
    (lockOnKeyDown lockInit ⟨"Front Door", 0, none, none⟩ 1000
        (.ok ⟨"success", none⟩)).2 =
      [Effect.toggleCall "Front Door",
       Effect.setImage (.rendered "lock" DEFAULT_UNLOCKED_COLOR false),
       Effect.setState 0] :=
  ⟨rfl, rfl⟩

/-- C5 amended: on a successful KeyDown with no cache entry, the toggle,
thermostat, group and security controllers skip the optimistic visual
entirely (the only effect is the command call; no alert); the lock and
garage-door controllers instead synthesize the prior state from the
documented default (locked, closed), and always push the optimistic visual —
also without an alert. -/
theorem keydown_success_no_cache_behavior
    (ts : ToggleSettings) (ths : ThermostatSettings) (grs : GroupSettings)
    (ses : SecuritySettings) (ls : LockSettings) (gds : GarageDoorSettings)
    (r : ActionResponse) (t : ℕ)
    (h1 : ts.target ≠ "") (h2 : ths.target ≠ "") (h3 : grs.target ≠ "")
    (h4 : ses.target ≠ "") (h5 : ls.target ≠ "") (h6 : gds.target ≠ "")
    (hr : r.status ≠ "error") :
    (∀ s, s.deviceCache.get? ts.target = none →
      toggleOnKeyDown s ts (.ok r) = (s, [Effect.toggleCall ts.target])) ∧
    (∀ s, s.stateCache.get? ths.target = none →
      thermoOnKeyDown s ths (.ok r) = (s, [Effect.toggleCall ths.target])) ∧
    (∀ s, s.groupCache.get? grs.target = none →
      groupOnKeyDown s grs (.ok r) = (s, [Effect.turnOnCall grs.target])) ∧
    (∀ s, s.securityCache.get? ses.target = none →
      securityOnKeyDown s ses (.ok r) =
        (s, [Effect.armCall ses.target (ses.armMode.getD 1)])) ∧
    (∀ s, s.lockCache.get? ls.target = none →
      (lockOnKeyDown s ls t (.ok r)).2 =
        Effect.toggleCall ls.target :: lockApplyVisual false none ls) ∧
    (∀ s, s.doorCache.get? gds.target = none →
      (garageOnKeyDown s gds t (.ok r)).2 =
        Effect.toggleCall gds.target :: garageApplyVisual "open" none) := by
  refine ⟨fun s hc => ?_, fun s hc => ?_, fun s hc => ?_, fun s hc => ?_,
    fun s hc => ?_, fun s hc => ?_⟩
  · simp [toggleOnKeyDown, h1, hr, hc]
  · simp [thermoOnKeyDown, h2, hr, hc]
  · simp [groupOnKeyDown, h3, hr, hc]
  · simp [securityOnKeyDown, h4, hr, hc]
  · simp [lockOnKeyDown, h5, hr, hc]
  · simp [garageOnKeyDown, h6, hr, hc]

/-- Witness for C5 (amended) at fresh controllers and target "D". -/
theorem keydown_success_no_cache_behavior_witness :
    toggleOnKeyDown toggleInit ⟨"D", 0, none⟩ (.ok ⟨"success", none⟩) =
      (toggleInit, [Effect.toggleCall "D"]) ∧
    thermoOnKeyDown thermoInit ⟨"D", 0, none, none, none, none⟩
        (.ok ⟨"success", none⟩) = (thermoInit, [Effect.toggleCall "D"]) ∧
    groupOnKeyDown groupInit ⟨"D", 0, none, none, none⟩ (.ok ⟨"success", none⟩) =
      (groupInit, [Effect.turnOnCall "D"]) ∧
    securityOnKeyDown securityInit ⟨"D", 0, none, none, none, none⟩
        (.ok ⟨"success", none⟩) = (securityInit, [Effect.armCall "D" 1]) ∧
    (lockOnKeyDown lockInit ⟨"D", 0, none, none⟩ 9 (.ok ⟨"success", none⟩)).2 =
      Effect.toggleCall "D" :: lockApplyVisual false none ⟨"D", 0, none, none⟩ ∧
    (garageOnKeyDown garageInit ⟨"D", 0⟩ 9 (.ok ⟨"success", none⟩)).2 =
      Effect.toggleCall "D" :: garageApplyVisual "open" none := by
  have T := keydown_success_no_cache_behavior ⟨"D", 0, none⟩
    ⟨"D", 0, none, none, none, none⟩ ⟨"D", 0, none, none, none⟩
    ⟨"D", 0, none, none, none, none⟩ ⟨"D", 0, none, none⟩ ⟨"D", 0⟩
    ⟨"success", none⟩ 9 (by decide) (by decide) (by decide) (by decide) (by decide)
    (by decide) (by decide)
  exact ⟨T.1 toggleInit rfl, T.2.1 thermoInit rfl, T.2.2.1 groupInit rfl,
    T.2.2.2.1 securityInit rfl, T.2.2.2.2.1 lockInit rfl, T.2.2.2.2.2 garageInit rfl⟩

/-! C7: title composition. -/

/-- C7 counterexample: the scene controller does not apply the uniform
`label\nvalue` composition — with label "Office" and scene "Movie" it sets
the title to the label alone (`label || scene || ""`), not "Office\nMovie". -/
theorem scene_title_not_uniform :
    sceneOnWillAppear ⟨"Movie", 0, some "Office", none⟩ (some []) =
      [Effect.listScenesCall,
       Effect.setImage (.rendered "sparkle" SCENE_DEFAULT_COLOR true),
       Effect.setTitle "Office"] ∧
    ("Office" : String) ≠ "Office" ++ "\n" ++ "Movie" :=
  ⟨rfl, by decide⟩

/-- C7 amended: the shared title expression satisfies the four documented
cases (label and value → `label\nvalue`; label only → label; value only →
value; neither → empty), and the thermostat and group controllers emit their
titles through it; the scene controller instead sets
`label || scene || ""` (the label wins outright, no newline composition). -/
theorem title_composition_rule (l v : String) :
    (l ≠ "" → v ≠ "" → jsComposeTitle (some l) v = l ++ "\n" ++ v) ∧
    (l ≠ "" → jsComposeTitle (some l) "" = l) ∧
    (jsComposeTitle (some "") v = v ∧ jsComposeTitle none v = v) ∧
    (jsComposeTitle (some "") "" = "" ∧ jsComposeTitle none "" = "") ∧
    (∀ s target settings d,
      Effect.setTitle (jsComposeTitle settings.label
        (thermoTempStr (jsOrStr settings.display "current-target")
          (d.state.bind DeviceState.temperature)
          (d.state.bind DeviceState.targetTemperature))) ∈
        (thermoUpdateState s target settings (.single d)).2) ∧
    (∀ s target settings ds, ds ≠ ([] : List DeviceInfo) →
      Effect.setTitle (jsComposeTitle settings.label
        (buildCountString (ds.countP groupDeviceOn) ds.length)) ∈
        (groupUpdateState s target settings (.arr ds)).2) ∧
    (∀ settings catalog,
      Effect.setTitle (jsOrStr settings.label (jsOrStr (some settings.scene) "")) ∈
        sceneOnWillAppear settings catalog) := by
  refine ⟨fun hl hv => ?_, fun hl => ?_, ⟨?_, ?_⟩, ⟨?_, ?_⟩,
    fun s target settings d => ?_, fun s target settings ds hne => ?_,
    fun settings catalog => ?_⟩
  · simp [jsComposeTitle, jsTruthy, hl, hv]
  · simp [jsComposeTitle, jsTruthy, jsOrStr, hl]
  · simp [jsComposeTitle, jsTruthy, jsOrStr]
  · simp [jsComposeTitle, jsTruthy, jsOrStr]
  · simp [jsComposeTitle, jsTruthy, jsOrStr]
  · simp [jsComposeTitle, jsTruthy, jsOrStr]
  · simp [thermoUpdateState, FetchOutcome.firstDevice, thermoApplyVisual]
  · simp [groupUpdateState, FetchOutcome.deviceList, groupApplyVisual,
      List.length_eq_zero, hne]
  · by_cases hs : settings.scene ≠ "" <;> cases catalog <;>
      simp [sceneOnWillAppear, hs]

/-- Witness for C7 (amended) at label "Office" and value "50%". -/
theorem title_composition_rule_witness :
    jsComposeTitle (some "Office") "50%" = "Office" ++ "\n" ++ "50%" ∧
    jsComposeTitle (some "Office") "" = "Office" ∧
    jsComposeTitle (some "") "50%" = "50%" ∧
    jsComposeTitle none "" = "" ∧
    Effect.setTitle (jsComposeTitle (some "Office")
      (thermoTempStr (jsOrStr (some "current-target") "current-target")
        (some (45/2)) (some 24))) ∈
      (thermoUpdateState thermoInit "T"
        ⟨"T", 0, some "Office", some "current-target", none, none⟩
        (.single ⟨"thermostat", none,
          some { DeviceState.blank with
            temperature := some (45/2), targetTemperature := some 24 }⟩)).2 ∧
    Effect.setTitle (jsComposeTitle (some "Office")
      (buildCountString
        (List.countP groupDeviceOn
          [⟨"light", none, some { DeviceState.blank with on' := some true }⟩,
           ⟨"light", none, some { DeviceState.blank with on' := some false }⟩])
        (List.length
          [(⟨"light", none, some { DeviceState.blank with on' := some true }⟩ :
              DeviceInfo),
           ⟨"light", none, some { DeviceState.blank with on' := some false }⟩]))) ∈
      (groupUpdateState groupInit "G" ⟨"G", 0, some "Office", none, none⟩
        (.arr [⟨"light", none, some { DeviceState.blank with on' := some true }⟩,
               ⟨"light", none, some { DeviceState.blank with on' := some false }⟩])).2 ∧
    Effect.setTitle (jsOrStr (some "Office") (jsOrStr (some "Movie") "")) ∈
      sceneOnWillAppear ⟨"Movie", 0, some "Office", none⟩ (some []) := by
  have T := title_composition_rule "Office" "50%"
  exact ⟨T.1 (by decide) (by decide), T.2.1 (by decide), T.2.2.1.1, T.2.2.2.1.2,
    T.2.2.2.2.1 thermoInit "T" ⟨"T", 0, some "Office", some "current-target", none, none⟩
      ⟨"thermostat", none, some { DeviceState.blank with
        temperature := some (45/2), targetTemperature := some 24 }⟩,
    T.2.2.2.2.2.1 groupInit "G" ⟨"G", 0, some "Office", none, none⟩
      [⟨"light", none, some { DeviceState.blank with on' := some true }⟩,
       ⟨"light", none, some { DeviceState.blank with on' := some false }⟩] (by simp),
    T.2.2.2.2.2.2 ⟨"Movie", 0, some "Office", none⟩ (some [])⟩

/-! C8: group aggregation. -/

theorem any_eq_countP_pos (ds : List DeviceInfo) :
    ds.any groupDeviceOn = decide (0 < ds.countP groupDeviceOn) := by
  induction ds with
  | nil => rfl
  | cons d t ih =>
    by_cases h : groupDeviceOn d <;>
      simp [List.any_cons, List.countP_cons, h, ih]

/-- C8: a group member counts as on iff its `on` field is true, or `on` is
absent and `brightness` is present and positive; the group renders on iff
some member is on; and the count string is `on/total` exactly in partial
states, empty when all on, all off, or the member list is empty. -/
theorem group_aggregation (d : DeviceInfo) (onCount totalCount : ℕ) :
    (groupDeviceOn d = true ↔
      (d.state.bind DeviceState.on' = some true ∨
        (d.state.bind DeviceState.on' = none ∧
          ∃ br, d.state.bind DeviceState.brightness = some br ∧ 0 < br))) ∧
    buildCountString 0 totalCount = "" ∧
    buildCountString totalCount totalCount = "" ∧
    (0 < onCount → onCount < totalCount →
      buildCountString onCount totalCount =
        toString onCount ++ "/" ++ toString totalCount) ∧
    (∀ s target settings ds, ds ≠ ([] : List DeviceInfo) →
      Effect.setState (if ds.any groupDeviceOn then 1 else 0) ∈
        (groupUpdateState s target settings (.arr ds)).2 ∧
      Effect.setTitle (jsComposeTitle settings.label
        (buildCountString (ds.countP groupDeviceOn) ds.length)) ∈
        (groupUpdateState s target settings (.arr ds)).2) := by
  refine ⟨?_, ?_, ?_, fun hpos hlt => ?_, fun s target settings ds hne => ⟨?_, ?_⟩⟩
  · unfold groupDeviceOn
    cases hon : d.state.bind DeviceState.on' with
    | some b =>
      cases hbr : d.state.bind DeviceState.brightness with
      | some br => cases b <;> simp [hon, hbr]
      | none => cases b <;> simp [hon, hbr]
    | none =>
      cases hbr : d.state.bind DeviceState.brightness with
      | some br => simp [hon, hbr]
      | none => simp [hon, hbr]
  · by_cases h0 : totalCount = 0 <;> simp [buildCountString, h0]
  · by_cases h0 : totalCount = 0 <;> simp [buildCountString, h0]
  · rw [buildCountString, if_neg (by omega), if_neg (by omega), if_neg (by omega)]
  · rw [any_eq_countP_pos]
    simp [groupUpdateState, FetchOutcome.deviceList, groupApplyVisual,
      List.length_eq_zero, hne, Nat.pos_iff_ne_zero]
  · simp [groupUpdateState, FetchOutcome.deviceList, groupApplyVisual,
      List.length_eq_zero, hne]

/-- Witness for C8 at a two-member group with one member on via brightness. -/
theorem group_aggregation_witness :
    (groupDeviceOn ⟨"light", none,
        some { DeviceState.blank with brightness := some 80 }⟩ = true ↔
      ((⟨"light", none, some { DeviceState.blank with brightness := some 80 }⟩ :
          DeviceInfo).state.bind DeviceState.on' = some true ∨
        ((⟨"light", none, some { DeviceState.blank with brightness := some 80 }⟩ :
            DeviceInfo).state.bind DeviceState.on' = none ∧
          ∃ br, (⟨"light", none,
              some { DeviceState.blank with brightness := some 80 }⟩ :
              DeviceInfo).state.bind DeviceState.brightness = some br ∧ 0 < br))) ∧
    buildCountString 0 3 = "" ∧
    buildCountString 3 3 = "" ∧
    buildCountString 2 3 = toString 2 ++ "/" ++ toString 3 ∧
    (Effect.setState (if List.any
        [⟨"light", none, some { DeviceState.blank with brightness := some 80 }⟩,
         ⟨"light", none, some { DeviceState.blank with on' := some false }⟩]
        groupDeviceOn then 1 else 0) ∈
      (groupUpdateState groupInit "G" ⟨"G", 0, none, none, none⟩
        (.arr [⟨"light", none, some { DeviceState.blank with brightness := some 80 }⟩,
               ⟨"light", none, some { DeviceState.blank with on' := some false }⟩])).2 ∧
     Effect.setTitle (jsComposeTitle (none : Option String)
        (buildCountString
          (List.countP groupDeviceOn
            [⟨"light", none, some { DeviceState.blank with brightness := some 80 }⟩,
             ⟨"light", none, some { DeviceState.blank with on' := some false }⟩])
          (List.length
            [(⟨"light", none,
                some { DeviceState.blank with brightness := some 80 }⟩ : DeviceInfo),
             ⟨"light", none, some { DeviceState.blank with on' := some false }⟩]))) ∈
      (groupUpdateState groupInit "G" ⟨"G", 0, none, none, none⟩
        (.arr [⟨"light", none, some { DeviceState.blank with brightness := some 80 }⟩,
               ⟨"light", none,
                 some { DeviceState.blank with on' := some false }⟩])).2) := by
  have T := group_aggregation
    ⟨"light", none, some { DeviceState.blank with brightness := some 80 }⟩ 2 3
  exact ⟨T.1, T.2.1, T.2.2.1, T.2.2.2.1 (by decide) (by decide),
    T.2.2.2.2 groupInit "G" ⟨"G", 0, none, none, none⟩
      [⟨"light", none, some { DeviceState.blank with brightness := some 80 }⟩,
       ⟨"light", none, some { DeviceState.blank with on' := some false }⟩] (by simp)⟩

end Itsyhome
